import Mathlib

/-!
Verification of the LemonNES emulator core against its specification.

The development shallowly embeds the JavaScript sources (`ppu.js`,
`cpu6502.js` — its second, table-driven `CPU6502` class — `memory.js` and
`cartridge.js`) into Lean.  Bytes and machine words are modelled as `Nat`
with explicit `% 2^w` masking where the source applies `& (2^w - 1)`;
non-contiguous JavaScript bit masks keep `&&&`/`|||`/`^^^`, with 32-bit
complements (`~m`) written as the corresponding 32-bit constant.
`Uint8Array` fields and the framebuffer become total functions `Nat → Nat`
updated pointwise; JavaScript `for` loops become structural recursion on a
descending iteration count.  Borrowed interfaces that the embedded
component only calls through a fixed method surface (the PPU's mapper CHR
access, the CPU's bus) are abstracted as byte-function fields of the state.
-/

/-- Pointwise update of a `Nat → Nat` array model. -/
def updFn (f : Nat → Nat) (k v : Nat) : Nat → Nat :=
  fun j => if j = k then v else f j

/-- Nametable mirroring selector (the source stores it as a string). -/
inductive Mirror where
  | horizontal
  | vertical
  | single0
  | single1
  deriving DecidableEq

/-- PPU state: the fields of the `PPU` class constructor in `ppu.js`.
The canvas plumbing (`canvas`, `ctx`, `imageData`) has no core-visible
state beyond the `fb` pixel store and the `paletteRGB` lookup, which are
kept as abstract `Nat → Nat` functions.  The mapper borrow is abstracted
as the byte function `chr` (the PPU only calls `chrRead`/`chrWrite`). -/
structure PPUState where
  v : Nat
  t : Nat
  x : Nat
  w : Nat
  ctrl : Nat
  mask : Nat
  status : Nat
  oam : Nat → Nat
  oamaddr : Nat
  secOAM : Nat → Nat
  spriteCount : Nat
  spriteZeroInLine : Bool
  vram : Nat → Nat
  palette : Nat → Nat
  mirror : Mirror
  cycle : Nat
  scanline : Nat
  frame : Nat
  nmi : Bool
  nameTableByte : Nat
  attrTableByte : Nat
  patternLo : Nat
  patternHi : Nat
  bgShiftLo : Nat
  bgShiftHi : Nat
  attrShiftLo : Nat
  attrShiftHi : Nat
  nextTileFineX : Nat
  bgLatchPal : Nat
  spriteShiftsLo : Nat → Nat
  spriteShiftsHi : Nat → Nat
  spriteX : Nat → Nat
  spriteAttr : Nat → Nat
  spriteY : Nat → Nat
  spriteIndices : Nat → Nat
  scanlineSprites : List Nat
  buffered : Nat
  chr : Nat → Nat
  fb : Nat → Nat
  paletteRGB : Nat → Nat

namespace PPU

/-- The `PPU` constructor state (`new PPU()` in `ppu.js`): all registers and
memories zero, `scanline = 261`, horizontal mirroring. -/
def init : PPUState :=
  { v := 0, t := 0, x := 0, w := 0
    ctrl := 0, mask := 0, status := 0
    oam := fun _ => 0, oamaddr := 0, secOAM := fun _ => 0
    spriteCount := 0, spriteZeroInLine := false
    vram := fun _ => 0, palette := fun _ => 0
    mirror := Mirror.horizontal
    cycle := 0, scanline := 261, frame := 0, nmi := false
    nameTableByte := 0, attrTableByte := 0, patternLo := 0, patternHi := 0
    bgShiftLo := 0, bgShiftHi := 0, attrShiftLo := 0, attrShiftHi := 0
    nextTileFineX := 0, bgLatchPal := 0
    spriteShiftsLo := fun _ => 0, spriteShiftsHi := fun _ => 0
    spriteX := fun _ => 0, spriteAttr := fun _ => 0
    spriteY := fun _ => 0, spriteIndices := fun _ => 0
    scanlineSprites := []
    buffered := 0
    chr := fun _ => 0, fb := fun _ => 0, paletteRGB := fun _ => 0 }

/-- `PPU.ntIndex`: nametable index under the active mirroring mode. -/
def ntIndex (st : PPUState) (addr : Nat) : Nat :=
  let a := addr % 0x1000
  let nt := (a >>> 10) % 4
  let off := a % 0x400
  match st.mirror with
  | Mirror.vertical => (nt % 2) * 0x400 + off
  | Mirror.horizontal => ((nt >>> 1) % 2) * 0x400 + off
  | _ => off  -- four-screen fallback

/-- Mirrored palette index used by `ppuRead`/`ppuWrite`: `idx = a & 0x1F`,
then `if ((idx & 0x13) === 0x10) idx &= ~0x10` (bit 4 is set there, so
clearing it subtracts `0x10`). -/
def paletteIndex (addr : Nat) : Nat :=
  let idx := (0x3F00 + addr % 0x20) % 0x20
  if idx &&& 0x13 = 0x10 then idx - 0x10 else idx

/-- `PPU.ppuRead`: PPU address-space read (pattern tables through the
mapper CHR function, nametables through `ntIndex`, palette with its
mirroring). -/
def ppuRead (st : PPUState) (addr : Nat) : Nat :=
  let addr := addr % 0x4000
  if addr < 0x2000 then
    st.chr (addr % 0x2000)
  else if addr < 0x3F00 then
    st.vram (ntIndex st addr % 0x800)
  else
    st.palette (paletteIndex addr) % 0x40

/-- `PPU.ppuWrite`: PPU address-space write. -/
def ppuWrite (st : PPUState) (addr val : Nat) : PPUState :=
  let addr := addr % 0x4000
  let val := val % 0x100
  if addr < 0x2000 then
    { st with chr := updFn st.chr (addr % 0x2000) val }
  else if addr < 0x3F00 then
    { st with vram := updFn st.vram (ntIndex st addr % 0x800) val }
  else
    { st with palette := updFn st.palette (paletteIndex addr) (val % 0x40) }

/-- Inner loop of `PPU.doDMA`: `for (let i=0;i<256;i++)
oam[(oamaddr + i) & 0xFF] = buf[i]`, recursing on the remaining count. -/
def dmaAux (a : Nat) (buf : Nat → Nat) (oam : Nat → Nat) (i : Nat) : Nat → (Nat → Nat)
  | 0 => oam
  | rem + 1 => dmaAux a buf (updFn oam ((a + i) % 256) (buf i)) (i + 1) rem

/-- `PPU.doDMA`: copy a 256-byte buffer into OAM starting at `oamaddr`. -/
def doDMA (st : PPUState) (buf : Nat → Nat) : PPUState :=
  { st with oam := dmaAux st.oamaddr buf st.oam 0 256 }

/-- `PPU.read`: CPU-visible register read; returns the value and the
updated PPU state. -/
def read (st : PPUState) (addr : Nat) : Nat × PPUState :=
  let r := addr % 8
  if r = 2 then -- $2002 PPUSTATUS
    let res := (st.status &&& 0xE0) ||| (st.buffered &&& 0x1F)
    (res, { st with status := st.status &&& 0xFFFFFF7F, w := 0 })  -- status &= ~0x80
  else if r = 4 then -- $2004 OAMDATA
    (st.oam (st.oamaddr % 0x100), st)
  else if r = 7 then -- $2007 PPUDATA (buffered)
    let addr14 := st.v % 0x4000
    let val := ppuRead st addr14
    if 0x3F00 ≤ addr14 then
      -- palette reads are not buffered
      let st := { st with buffered := ppuRead st (addr14 - 0x1000) }
      let st := { st with v := (st.v + (if st.ctrl &&& 0x04 ≠ 0 then 32 else 1)) % 0x8000 }
      (val, st)
    else
      let ret := st.buffered
      let st := { st with buffered := val }
      let st := { st with v := (st.v + (if st.ctrl &&& 0x04 ≠ 0 then 32 else 1)) % 0x8000 }
      (ret, st)
  else (0, st)

/-- `PPU.write`: CPU-visible register write ($2000-$2007 after mirror
mask). -/
def write (st : PPUState) (addr val : Nat) : PPUState :=
  let val := val % 0x100
  let r := addr % 8
  if r = 0 then -- $2000 PPUCTRL; t bits 10-11 from val bits 0-1
    { st with ctrl := val, t := (st.t &&& 0xF3FF) ||| ((val &&& 0x03) <<< 10) }
  else if r = 1 then -- $2001 PPUMASK
    { st with mask := val }
  else if r = 3 then -- $2003 OAMADDR
    { st with oamaddr := val % 0x100 }
  else if r = 4 then -- $2004 OAMDATA
    { st with oam := updFn st.oam (st.oamaddr % 0x100) val,
              oamaddr := (st.oamaddr + 1) % 0x100 }
  else if r = 5 then -- $2005 PPUSCROLL
    if st.w = 0 then
      { st with x := val % 8, t := (st.t &&& 0x7FE0) ||| ((val &&& 0xF8) >>> 3), w := 1 }
    else
      { st with t := (st.t &&& 0x0C1F) ||| ((val &&& 0x07) <<< 12) ||| ((val &&& 0xF8) <<< 2),
                w := 0 }
  else if r = 6 then -- $2006 PPUADDR
    if st.w = 0 then
      { st with t := (st.t % 0x100) ||| ((val &&& 0x3F) <<< 8), w := 1 }
    else
      let t := (st.t &&& 0x7F00) ||| val
      { st with t := t, v := t, w := 0 }
  else if r = 7 then -- $2007 PPUDATA
    let st := ppuWrite st (st.v % 0x4000) val
    { st with v := (st.v + (if st.ctrl &&& 0x04 ≠ 0 then 32 else 1)) % 0x8000 }
  else st

/-- `PPU.incCoarseX`: coarse-X increment with horizontal nametable toggle. -/
def incCoarseX (st : PPUState) : PPUState :=
  if st.v % 0x20 = 31 then
    let v := st.v &&& 0xFFFFFFE0  -- v &= ~0x001F
    { st with v := v ^^^ 0x0400 }
  else { st with v := st.v + 1 }

/-- `PPU.incY`: fine-Y increment with coarse-Y carry (29 toggles bit 11,
31 wraps without toggle).  The source's reassignments of `y`/`v` are
linearized into the conditional bindings `v2`/`y2`. -/
def incY (st : PPUState) : PPUState :=
  if st.v &&& 0x7000 ≠ 0x7000 then
    { st with v := st.v + 0x1000 }
  else
    let v := st.v &&& 0xFFFF8FFF  -- v &= ~0x7000
    let y := (v &&& 0x03E0) >>> 5
    let v2 := if y = 29 then v ^^^ 0x0800 else v
    let y2 := if y = 29 then 0 else if y = 31 then 0 else y + 1
    { st with v := (v2 &&& 0xFFFFFC1F) ||| (y2 <<< 5) }  -- (v & ~0x03E0) | (y << 5)

/-- `PPU.copyX`: `v = (v & ~0x041F) | (t & 0x041F)`. -/
def copyX (st : PPUState) : PPUState :=
  { st with v := (st.v &&& 0xFFFFFBE0) ||| (st.t &&& 0x041F) }

/-- `PPU.copyY`: `v = (v & ~0x7BE0) | (t & 0x7BE0)`. -/
def copyY (st : PPUState) : PPUState :=
  { st with v := (st.v &&& 0xFFFF841F) ||| (st.t &&& 0x7BE0) }

/-- `PPU.fetchName`: nametable byte at `$2000 | (v & 0x0FFF)`. -/
def fetchName (st : PPUState) : PPUState :=
  { st with nameTableByte := ppuRead st (0x2000 ||| (st.v % 0x1000)) }

/-- `PPU.fetchAttr`: attribute byte and the 2 palette bits for the tile. -/
def fetchAttr (st : PPUState) : PPUState :=
  let atAddr := 0x23C0 ||| (st.v &&& 0x0C00) ||| ((st.v >>> 4) &&& 0x38) ||| ((st.v >>> 2) % 8)
  let attrTableByte := ppuRead st atAddr
  let shift := ((st.v >>> 4) &&& 4) ||| (st.v &&& 2)
  { st with attrTableByte := attrTableByte,
            bgLatchPal := ((attrTableByte >>> shift) % 4) <<< 2 }

/-- `PPU.fetchPatternLow`: background pattern low plane. -/
def fetchPatternLow (st : PPUState) : PPUState :=
  let fineY := (st.v >>> 12) % 8
  let table := if st.ctrl &&& 0x10 ≠ 0 then 1 else 0
  let tile := st.nameTableByte % 0x100
  { st with patternLo := ppuRead st (table * 0x1000 + tile * 16 + fineY) }

/-- `PPU.fetchPatternHigh`: background pattern high plane (low plane + 8). -/
def fetchPatternHigh (st : PPUState) : PPUState :=
  let fineY := (st.v >>> 12) % 8
  let table := if st.ctrl &&& 0x10 ≠ 0 then 1 else 0
  let tile := st.nameTableByte % 0x100
  { st with patternHi := ppuRead st (table * 0x1000 + tile * 16 + fineY + 8) }

/-- `PPU.loadBGShiftRegisters`: load the fetched bytes into the low half of
the 16-bit shift registers; attribute bits become 8-bit streams. -/
def loadBGShiftRegisters (st : PPUState) : PPUState :=
  let pal := st.bgLatchPal % 0x100
  let lo := if pal &&& 0x01 ≠ 0 then 0xFF else 0x00
  let hi := if pal &&& 0x02 ≠ 0 then 0xFF else 0x00
  { st with bgShiftLo := ((st.bgShiftLo % 0x100) ||| (st.patternLo <<< 8)) % 0x10000,
            bgShiftHi := ((st.bgShiftHi % 0x100) ||| (st.patternHi <<< 8)) % 0x10000,
            attrShiftLo := ((st.attrShiftLo % 0x100) ||| (lo <<< 8)) % 0x10000,
            attrShiftHi := ((st.attrShiftHi % 0x100) ||| (hi <<< 8)) % 0x10000 }

/-- `reverseByte` helper from `ppu.js` (sprite horizontal flip). -/
def reverseByte (b : Nat) : Nat :=
  let b := ((b &&& 0xF0) >>> 4) ||| ((b &&& 0x0F) <<< 4)
  let b := ((b &&& 0xCC) >>> 2) ||| ((b &&& 0x33) <<< 2)
  let b := ((b &&& 0xAA) >>> 1) ||| ((b &&& 0x55) <<< 1)
  b % 0x100

/-- The 64-sprite scan of `PPU.evaluateSprites` (`i` ascends, `rem` counts
the remaining iterations; the `spriteCount === 9` break returns without
recursing).  The hit test `row >= 0 && row < h` with `row = y - sy`
becomes `sy ≤ y ∧ y - sy < h`. -/
def evaluateLoop (y : Nat) (st : PPUState) (i : Nat) : Nat → PPUState
  | 0 => st
  | rem + 1 =>
    let o := i * 4
    let sy := st.oam o
    let tile := st.oam (o + 1)
    let attr := st.oam (o + 2)
    let sx := st.oam (o + 3)
    let h := if st.ctrl &&& 0x20 ≠ 0 then 16 else 8
    if sy ≤ y ∧ y - sy < h then
      let st :=
        if st.spriteCount < 8 then
          let dest := st.spriteCount * 4
          let st := { st with secOAM :=
            (updFn (updFn (updFn (updFn st.secOAM dest sy) (dest + 1) tile) (dest + 2) attr)
              (dest + 3) sx) }
          if i = 0 then { st with spriteZeroInLine := true } else st
        else st
      let st := { st with spriteCount := st.spriteCount + 1 }
      if st.spriteCount = 9 then { st with status := st.status ||| 0x20 }
      else evaluateLoop y st (i + 1) rem
    else evaluateLoop y st (i + 1) rem

/-- The per-slot population loop at the end of `PPU.evaluateSprites`. -/
def fillLoop (st : PPUState) (i : Nat) : Nat → PPUState
  | 0 => st
  | rem + 1 =>
    let base := i * 4
    let sy := st.secOAM base
    let st :=
      if sy = 0xFF then
        { st with spriteY := updFn st.spriteY i 0xFF,
                  spriteX := updFn st.spriteX i 0,
                  spriteAttr := updFn st.spriteAttr i 0,
                  spriteShiftsLo := updFn st.spriteShiftsLo i 0,
                  spriteShiftsHi := updFn st.spriteShiftsHi i 0,
                  spriteIndices := updFn st.spriteIndices i 0xFF }
      else
        let tile := st.secOAM (base + 1)
        let attr := st.secOAM (base + 2)
        let sx := st.secOAM (base + 3)
        { st with spriteY := updFn st.spriteY i sy,
                  spriteAttr := updFn st.spriteAttr i attr,
                  spriteX := updFn st.spriteX i sx,
                  spriteIndices := updFn st.spriteIndices i tile,
                  spriteShiftsLo := updFn st.spriteShiftsLo i 0,
                  spriteShiftsHi := updFn st.spriteShiftsHi i 0 }
    fillLoop st (i + 1) rem

/-- `PPU.evaluateSprites`: scan primary OAM for the current scanline into
secondary OAM (8-sprite limit, overflow flag) and populate the per-slot
sprite registers. -/
def evaluateSprites (st : PPUState) : PPUState :=
  let y := st.scanline
  let st := { st with scanlineSprites := [], spriteCount := 0, spriteZeroInLine := false }
  -- for (let i=0;i<32;i++) this.secOAM[i] = 0xFF
  let st := { st with secOAM := fun j => if j < 32 then 0xFF else st.secOAM j }
  let st := evaluateLoop y st 0 64
  fillLoop st 0 8

/-- The 8-slot pattern-fetch loop of `PPU.fetchSpritePatterns`.  The
source's sequential reassignments of `table`/`tile`/`fineY` in the 8×16
branch are linearized into conditional bindings. -/
def sprFetchLoop (spriteHeight : Nat) (st : PPUState) (i : Nat) : Nat → PPUState
  | 0 => st
  | rem + 1 =>
    let st :=
      if st.spriteY i = 0xFF then
        { st with spriteShiftsLo := updFn st.spriteShiftsLo i 0,
                  spriteShiftsHi := updFn st.spriteShiftsHi i 0 }
      else
        let row := st.scanline - st.spriteY i
        let tile := st.spriteIndices i
        let tableBase := if st.ctrl &&& 0x08 ≠ 0 then 1 else 0
        let table := if spriteHeight = 16 then tile % 2 else tableBase
        let tile16 := if spriteHeight = 16 then
            (if 8 ≤ row then (tile &&& 0xFE) + 1 else tile &&& 0xFE)
          else tile
        let fineY := if spriteHeight = 16 ∧ 8 ≤ row then row - 8 else row % 8
        let flipV := (st.spriteAttr i >>> 7) % 2
        let flipH := (st.spriteAttr i >>> 6) % 2
        let fy := if flipV = 1 then 7 - fineY else fineY
        let addrLo := table * 0x1000 + tile16 * 16 + fy
        let addrHi := addrLo + 8
        let lo := ppuRead st addrLo
        let hi := ppuRead st addrHi
        let lo := if flipH = 1 then reverseByte lo else lo
        let hi := if flipH = 1 then reverseByte hi else hi
        { st with spriteShiftsLo := updFn st.spriteShiftsLo i lo,
                  spriteShiftsHi := updFn st.spriteShiftsHi i hi }
    sprFetchLoop spriteHeight st (i + 1) rem

/-- `PPU.fetchSpritePatterns`: fetch pattern bytes for the up-to-8 sprites
of the scanline. -/
def fetchSpritePatterns (st : PPUState) : PPUState :=
  let spriteHeight := if st.ctrl &&& 0x20 ≠ 0 then 16 else 8
  sprFetchLoop spriteHeight st 0 8

/-- The sprite-search loop inside `PPU.renderPixel`: the first slot in
order with X counter 0 and a non-transparent pixel yields
`(pixel, palette, priority, isSpriteZero)`. -/
def sprFindAux (st : PPUState) (s : Nat) : Nat → Nat × Nat × Nat × Bool
  | 0 => (0, 0, 0, false)
  | rem + 1 =>
    if st.spriteY s = 0xFF then sprFindAux st (s + 1) rem
    else if st.spriteX s = 0 then
      let lo := (st.spriteShiftsLo s >>> 7) % 2
      let hi := (st.spriteShiftsHi s >>> 7) % 2
      let px := (hi <<< 1) ||| lo
      if px ≠ 0 then
        let attr := st.spriteAttr s
        (px, ((attr &&& 3) + 4) <<< 2, (attr >>> 5) % 2, st.spriteZeroInLine && s == 0)
      else sprFindAux st (s + 1) rem
    else sprFindAux st (s + 1) rem

/-- `PPU.renderPixel`: one dot of background/sprite compositing, including
the sprite-0 hit update (`status |= 0x40` when both pixels are non-zero,
the contributing sprite is sprite 0 and `x < 255`; the source has no
left-8-pixel gating).  The source's dead exploratory bindings (`bit`,
`shift`, `lo`, `bgLo`, `bitIndex`) are omitted; the canonical extraction
it actually uses is kept. -/
def renderPixel (st : PPUState) (x y : Nat) : PPUState :=
  let maskedBg := st.mask &&& 0x08 ≠ 0
  let maskedSprites := st.mask &&& 0x10 ≠ 0
  let bgPixel := if maskedBg then
      (((st.bgShiftHi >>> (15 - st.x)) % 2) <<< 1) ||| ((st.bgShiftLo >>> (15 - st.x)) % 2)
    else 0
  let bgPalette := if maskedBg then
      ((((st.attrShiftHi >>> (15 - st.x)) % 2) <<< 1) ||| ((st.attrShiftLo >>> (15 - st.x)) % 2)) <<< 2
    else 0
  let sp := if maskedSprites then sprFindAux st 0 8 else (0, 0, 0, false)
  let spritePixel := sp.1
  let spritePal := sp.2.1
  let spritePriority := sp.2.2.1
  let spriteIsZero := sp.2.2.2
  let st := if spritePixel ≠ 0 ∧ bgPixel ≠ 0 ∧ spriteIsZero = true ∧ x < 255 then
      { st with status := st.status ||| 0x40 }
    else st
  let colorIndex :=
    if spritePixel ≠ 0 ∧ (spritePriority = 0 ∨ bgPixel = 0) then
      0x10 ||| spritePal ||| (spritePixel % 4)
    else if bgPixel ≠ 0 then
      0x10 ||| bgPalette ||| (bgPixel % 4)
    else st.palette 0 % 0x40
  let rgbIndex := colorIndex % 0x40
  { st with fb := (updFn st.fb (y * 256 + x)
      (if st.paletteRGB rgbIndex ≠ 0 then st.paletteRGB rgbIndex else 0xFF000000)) }

/-- The per-slot decrement/shift loop of `PPU.stepShifters`. -/
def sprShiftLoop (st : PPUState) (i : Nat) : Nat → PPUState
  | 0 => st
  | rem + 1 =>
    let st :=
      if st.spriteX i = 0 then
        { st with
            spriteShiftsLo := updFn st.spriteShiftsLo i ((st.spriteShiftsLo i <<< 1) % 0x100),
            spriteShiftsHi := updFn st.spriteShiftsHi i ((st.spriteShiftsHi i <<< 1) % 0x100) }
      else if 0 < st.spriteX i then
        { st with spriteX := updFn st.spriteX i (st.spriteX i - 1) }
      else st
    sprShiftLoop st (i + 1) rem

/-- `PPU.stepShifters`: shift background registers (bg enabled) and step
the sprite X counters / shifts (sprites enabled). -/
def stepShifters (st : PPUState) : PPUState :=
  let st := if st.mask &&& 0x08 ≠ 0 then
      { st with bgShiftLo := (st.bgShiftLo <<< 1) % 0x10000,
                bgShiftHi := (st.bgShiftHi <<< 1) % 0x10000,
                attrShiftLo := (st.attrShiftLo <<< 1) % 0x10000,
                attrShiftHi := (st.attrShiftHi <<< 1) % 0x10000 }
    else st
  if st.mask &&& 0x10 ≠ 0 then sprShiftLoop st 0 8 else st

/-- `PPU.renderToCanvas` only blits the framebuffer to the host canvas and
changes no core state. -/
def renderToCanvas (st : PPUState) : PPUState := st

/-- Backdrop fill used when rendering is disabled (the `else` branch of
the pixel loop in `PPU.step`). -/
def backdropFill (st : PPUState) (x y : Nat) : PPUState :=
  let col := st.palette 0 % 0x40
  { st with fb := (updFn st.fb (y * 256 + x)
      (if st.paletteRGB col ≠ 0 then st.paletteRGB col else 0xFF000000)) }

/-- Dots 1-256 of a visible scanline in `PPU.step`: the mod-8 background
fetch sequence, the pixel, the shifters, and coarse-X increment. -/
def pixelPhase (re : Bool) (st : PPUState) : PPUState :=
  let cycleMod8 := st.cycle % 8
  let st :=
    if cycleMod8 = 1 then fetchName st
    else if cycleMod8 = 3 then fetchAttr st
    else if cycleMod8 = 5 then fetchPatternLow st
    else if cycleMod8 = 7 then fetchPatternHigh st
    else if cycleMod8 = 0 then loadBGShiftRegisters st
    else st
  let x := st.cycle - 1
  let y := st.scanline
  let st := if re then renderPixel st x y else backdropFill st x y
  let st := stepShifters st
  if cycleMod8 = 0 then incCoarseX st else st

/-- The cycle-257 fixup loop in `PPU.step` (empty slots get X counter
`0xFF`). -/
def fixSpriteXLoop (st : PPUState) (i : Nat) : Nat → PPUState
  | 0 => st
  | rem + 1 =>
    let st := if st.spriteY i = 0xFF then { st with spriteX := updFn st.spriteX i 0xFF } else st
    fixSpriteXLoop st (i + 1) rem

/-- The visible-scanline block of `PPU.step` (scanlines 0-239). -/
def visibleScanline (re : Bool) (st : PPUState) : PPUState :=
  let st := if 1 ≤ st.cycle ∧ st.cycle ≤ 256 then pixelPhase re st else st
  let st :=
    if st.cycle = 257 then
      let st := if re then copyX st else st
      if re then
        let st := evaluateSprites st
        let st := fetchSpritePatterns st
        fixSpriteXLoop st 0 8
      else st
    else st
  if st.cycle = 256 then (if re then incY st else st) else st

/-- The cycle/scanline/frame counter advance at the end of `PPU.step`. -/
def advanceCounters (st : PPUState) : PPUState :=
  let st : PPUState := { st with cycle := st.cycle + 1 }
  if 340 < st.cycle then
    let st : PPUState := { st with cycle := 0, scanline := st.scanline + 1 }
    if 261 < st.scanline then { st with scanline := 0, frame := st.frame + 1 } else st
  else st

/-- `PPU.step`: advance one dot. -/
def step (st : PPUState) : PPUState :=
  -- Pre-render line 261, cycle 1: clear VBlank / sprite-0 / overflow
  let st := if st.scanline = 261 ∧ st.cycle = 1 then
      { st with status := st.status &&& 0xFFFFFF1F,  -- status &= ~(0x80|0x40|0x20)
                spriteZeroInLine := false }
    else st
  let re : Bool := st.mask &&& 0x18 != 0
  let st := if st.scanline ≤ 239 then visibleScanline re st else st
  -- Pre-render line: cycles 280..304 copy Y if rendering enabled
  let st := if st.scanline = 261 ∧ 280 ≤ st.cycle ∧ st.cycle ≤ 304 ∧ re = true then copyY st
    else st
  -- Enter VBlank at scanline 241 cycle 1
  let st : PPUState := if st.scanline = 241 ∧ st.cycle = 1 then
      let st := { st with status := st.status ||| 0x80 }
      let st := if st.ctrl &&& 0x80 ≠ 0 then { st with nmi := true } else st
      renderToCanvas st
    else st
  -- Advance cycle counters
  advanceCounters st

end PPU

/-- Modelled from the spec: `input.js` is not among the provided sources.
The spec describes a controller as an 8-bit shift register: writing bit 0
of $4016 latches the button state while the bit remains set; reads return
bit 0 of the shift register and shift it. -/
structure Controller where
  buttons : Nat
  shiftReg : Nat
  strobe : Bool

namespace Controller

/-- Modelled from the spec: controller read returns bit 0 of the shift
register and shifts it. -/
def read (c : Controller) : Nat × Controller :=
  (c.shiftReg % 2, { c with shiftReg := c.shiftReg >>> 1 })

/-- Modelled from the spec: writing bit 0 sets the strobe; while set, the
current button state is latched into the shift register. -/
def write (c : Controller) (val : Nat) : Controller :=
  let strobe := val % 2 ≠ 0
  if strobe then { c with strobe := strobe, shiftReg := c.buttons % 0x100 }
  else { c with strobe := strobe }

end Controller

/-- Bus state (`Bus` in `memory.js`): 2 KiB internal RAM, the borrowed
PPU, the cartridge PRG and SRAM, two controllers, and the APU.  The APU is
modelled from the spec (no `apu.js` in the sources): an opaque register
sink with register echo, kept as a register file. -/
structure BusState where
  ram : Nat → Nat
  ppu : PPUState
  prg : List Nat
  sram : Nat → Nat
  ctrl1 : Controller
  ctrl2 : Controller
  apuRegs : Nat → Nat

/-- `Cartridge.read` in `cartridge.js` (the Bus takes this path because
the `Cartridge` object itself carries no `prgRead`): PRG bytes above
$8000, 0 otherwise.  Out-of-range `Uint8Array` reads are modelled as 0. -/
def cartRead (prg : List Nat) (addr : Nat) : Nat :=
  if 0x8000 ≤ addr then prg.getD (addr - 0x8000) 0 else 0

namespace Bus

/-- `Bus.cpuRead`: CPU address-space decode.  Reads of PPU registers and
controllers have side effects, so the updated bus state is returned. -/
def cpuRead (st : BusState) (addr : Nat) : Nat × BusState :=
  let addr := addr % 0x10000
  if addr < 0x2000 then (st.ram (addr % 0x800), st)
  else if addr < 0x4000 then
    let r := PPU.read st.ppu (0x2000 + addr % 8)
    (r.1, { st with ppu := r.2 })
  else if addr = 0x4016 then
    let r := Controller.read st.ctrl1
    (r.1, { st with ctrl1 := r.2 })
  else if addr = 0x4017 then
    let r := Controller.read st.ctrl2
    (r.1, { st with ctrl2 := r.2 })
  else if addr = 0x4015 then (st.apuRegs 0x4015, st)
  else if 0x8000 ≤ addr then (cartRead st.prg addr, st)
  else if 0x6000 ≤ addr then (st.sram (addr - 0x6000), st)
  else (0, st)

/-- The OAM-DMA buffer fill in `Bus.cpuWrite`:
`for (let i=0;i<256;i++) buf[i] = this.cpuRead(page + i)`.  `Uint8Array`
stores masked bytes. -/
def dmaReadLoop (page : Nat) (st : BusState) (buf : Nat → Nat) (i : Nat) :
    Nat → (Nat → Nat) × BusState
  | 0 => (buf, st)
  | rem + 1 =>
    let r := cpuRead st (page + i)
    dmaReadLoop page r.2 (updFn buf i (r.1 % 0x100)) (i + 1) rem

/-- `Bus.cpuWrite`: CPU address-space write decode, including OAM DMA at
$4014.  The source stalls no CPU for DMA ("our CPU.step will be simple
MVP (no stall)"), and the `Cartridge` object carries no `prgWrite`, so
PRG-area writes are dropped here. -/
def cpuWrite (st : BusState) (addr val : Nat) : BusState :=
  let addr := addr % 0x10000
  let val := val % 0x100
  if addr < 0x2000 then { st with ram := updFn st.ram (addr % 0x800) val }
  else if addr < 0x4000 then { st with ppu := PPU.write st.ppu (0x2000 + addr % 8) val }
  else if addr = 0x4014 then
    let page := val <<< 8
    let r := dmaReadLoop page st (fun _ => 0) 0 256
    { r.2 with ppu := PPU.doDMA r.2.ppu r.1 }
  else if addr = 0x4016 then
    { st with ctrl1 := Controller.write st.ctrl1 val, ctrl2 := Controller.write st.ctrl2 val }
  else if 0x4000 ≤ addr ∧ addr ≤ 0x4017 then
    { st with apuRegs := updFn st.apuRegs addr val }
  else if 0x8000 ≤ addr then st
  else if 0x6000 ≤ addr then { st with sram := updFn st.sram (addr - 0x6000) val }
  else st

end Bus

/-- Mapper 1 (MMC1) state from `cartridge.js`, together with the
`cart.mirror` field it writes on control commits. -/
structure Mapper1State where
  shift : Nat
  ctrl : Nat
  prgBank : Nat
  chrBank0 : Nat
  chrBank1 : Nat
  mirror : Mirror

namespace Mapper1

/-- The `Mapper1` constructor state. -/
def init : Mapper1State :=
  { shift := 0x10, ctrl := 0x0C, prgBank := 0, chrBank0 := 0, chrBank1 := 0,
    mirror := Mirror.horizontal }

/-- `Mapper1.writeReg`: the MMC1 serial port.  Bit 7 of the value resets
the shift register and ORs control with $0C; otherwise the low bit shifts
in from the right, and the 5th bit commits to the register selected by
address bits 13-14. -/
def writeReg (m : Mapper1State) (addr val : Nat) : Mapper1State :=
  if val &&& 0x80 ≠ 0 then
    { m with shift := 0x10, ctrl := m.ctrl ||| 0x0C }
  else
    let complete := m.shift % 2
    let shift := (m.shift >>> 1) ||| ((val % 2) <<< 4)
    if complete ≠ 0 then
      let reg := (addr >>> 13) % 4
      let data := shift % 0x20
      let m := { m with shift := 0x10 }
      if reg = 0 then
        { m with ctrl := data,
                 mirror := (match data % 4 with
                   | 0 => Mirror.horizontal
                   | 1 => Mirror.vertical
                   | 2 => Mirror.single0
                   | _ => Mirror.single1) }
      else if reg = 1 then { m with chrBank0 := data }
      else if reg = 2 then { m with chrBank1 := data }
      else { m with prgBank := data % 0x10 }
    else { m with shift := shift }

end Mapper1

/-- 6502 addressing modes of the table-driven `CPU6502` in `cpu6502.js`. -/
inductive AddrMode where
  | IMP | IMM | ZP0 | ZPX | ZPY | ABS | ABX | ABY | IZX | IZY | IND | REL
  deriving DecidableEq

/-- Instruction mnemonics of the `CPU6502` opcode table. -/
inductive Ins where
  | BRK | NOP
  | LDA | LDX | LDY | STA | STX | STY
  | TAX | TAY | TXA | TYA | TSX | TXS
  | PHA | PHP | PLA | PLP
  | AND | ORA | EOR | ADC | SBC
  | CMP | CPX | CPY
  | INC | INX | INY | DEC | DEX | DEY
  | ASL | LSR | ROL | ROR
  | BIT | JMP | JSR | RTS | RTI
  | BCC | BCS | BEQ | BMI | BNE | BPL | BVC | BVS
  | CLC | SEC | CLI | SEI | CLV | CLD | SED
  deriving DecidableEq

/-- An opcode table entry `{ mode, ins, cy }`. -/
structure OpEntry where
  mode : AddrMode
  ins : Ins
  cy : Nat
  deriving DecidableEq

/-- CPU state: the register fields of the table-driven `CPU6502` class.
The bus borrow is abstracted as the byte function `mem` (the CPU only
calls `bus.cpuRead`/`bus.cpuWrite`). -/
structure CPUState where
  a : Nat
  x : Nat
  y : Nat
  sp : Nat
  p : Nat
  pc : Nat
  cycles : Nat
  stall : Nat
  mem : Nat → Nat

namespace CPU6502

/-- `CPU6502.read`: `bus.cpuRead(addr & 0xFFFF)`, masked to a byte since
the bus always returns bytes. -/
def cread (st : CPUState) (addr : Nat) : Nat :=
  st.mem (addr % 0x10000) % 0x100

/-- `CPU6502.write`: `bus.cpuWrite(addr & 0xFFFF, val & 0xFF)`. -/
def cwrite (st : CPUState) (addr val : Nat) : CPUState :=
  { st with mem := updFn st.mem (addr % 0x10000) (val % 0x100) }

/-- `CPU6502.push`: store at $0100+SP, then `sp = (sp - 1) & 0xFF`
(written as the equivalent `(sp + 0xFF) % 0x100`). -/
def push (st : CPUState) (v : Nat) : CPUState :=
  let st := cwrite st (0x100 + st.sp) (v % 0x100)
  { st with sp := (st.sp + 0xFF) % 0x100 }

/-- `CPU6502.pop`: `sp = (sp + 1) & 0xFF`, then read $0100+SP. -/
def pop (st : CPUState) : Nat × CPUState :=
  let sp := (st.sp + 1) % 0x100
  (cread st (0x100 + sp), { st with sp := sp })

/-- `CPU6502.getFlag`. -/
def getFlag (st : CPUState) (bit : Nat) : Nat :=
  (st.p >>> bit) % 2

/-- `CPU6502.setFlag`; the clearing branch `p &= ~(1 << bit)` uses the
32-bit complement as in JavaScript. -/
def setFlag (st : CPUState) (bit : Nat) (v : Bool) : CPUState :=
  if v then { st with p := st.p ||| (1 <<< bit) }
  else { st with p := st.p &&& (0xFFFFFFFF ^^^ (1 <<< bit)) }

/-- `CPU6502.setZN`. -/
def setZN (st : CPUState) (v : Nat) : CPUState :=
  let st := setFlag st 1 (v % 0x100 == 0)
  setFlag st 7 (v &&& 0x80 != 0)

/-- The `ADC` helper closure in `CPU6502.execute`.  `~(a ^ v)` is written
as `(a ^ v) ^ 0xFF`: both operands are bytes and only bit 7 is observed
through `& 0x80`. -/
def adc (st : CPUState) (v : Nat) : CPUState :=
  let t := st.a + v + getFlag st 0
  let st := setFlag st 0 (0xFF < t)
  let st := setFlag st 6 ((((st.a ^^^ v) ^^^ 0xFF) &&& (st.a ^^^ t) &&& 0x80) != 0)
  let st := { st with a := t % 0x100 }
  setZN st st.a

/-- The `SBC` helper closure: `ADC((v ^ 0xFF) & 0xFF)`. -/
def sbc (st : CPUState) (v : Nat) : CPUState :=
  adc st ((v ^^^ 0xFF) % 0x100)

/-- The `CMP` helper closure: carry is `r >= v`, Z/N from
`(r - v) & 0xFF` (written `(r + 0x100 - v) % 0x100` on bytes). -/
def cmp (st : CPUState) (r v : Nat) : CPUState :=
  let st := setFlag st 0 (v ≤ r)
  setZN st ((r + 0x100 - v) % 0x100)

/-- The `BIT` helper closure. -/
def bitIns (st : CPUState) (v : Nat) : CPUState :=
  let st := setFlag st 1 (st.a &&& v == 0)
  let st := setFlag st 6 (v &&& 0x40 != 0)
  setFlag st 7 (v &&& 0x80 != 0)

/-- The branch pattern repeated by all eight branch cases of
`CPU6502.execute`: on a taken branch add one cycle, one more on a page
cross, then jump. -/
def branch (st : CPUState) (cond : Bool) (addr : Nat) : CPUState :=
  if cond then
    let st := { st with cycles := st.cycles + 1 }
    let st := if (st.pc &&& 0xFF00) ≠ (addr &&& 0xFF00) then
        { st with cycles := st.cycles + 1 }
      else st
    { st with pc := addr }
  else st

/-- `CPU6502.fetchAddr`: resolve an addressing mode, returning the
effective address (`none` for implied), the page-cross flag, and the
state with PC advanced past the operand bytes.  `REL` keeps the source's
`pc + off - 0x100` shape; the truncated subtraction can only differ from
JavaScript for `pc < 0x80`. -/
def fetchAddr (mode : AddrMode) (st : CPUState) : Option Nat × Nat × CPUState :=
  match mode with
  | .IMP => (none, 0, st)
  | .IMM => (some st.pc, 0, { st with pc := st.pc + 1 })
  | .ZP0 => (some (cread st st.pc), 0, { st with pc := st.pc + 1 })
  | .ZPX => (some ((cread st st.pc + st.x) % 0x100), 0, { st with pc := st.pc + 1 })
  | .ZPY => (some ((cread st st.pc + st.y) % 0x100), 0, { st with pc := st.pc + 1 })
  | .ABS =>
    let lo := cread st st.pc
    let hi := cread st (st.pc + 1)
    (some (lo ||| (hi <<< 8)), 0, { st with pc := st.pc + 2 })
  | .ABX =>
    let lo := cread st st.pc
    let hi := cread st (st.pc + 1)
    let a := lo ||| (hi <<< 8)
    let res := (a + st.x) % 0x10000
    (some res, if (a ^^^ res) &&& 0xFF00 ≠ 0 then 1 else 0, { st with pc := st.pc + 2 })
  | .ABY =>
    let lo := cread st st.pc
    let hi := cread st (st.pc + 1)
    let a := lo ||| (hi <<< 8)
    let res := (a + st.y) % 0x10000
    (some res, if (a ^^^ res) &&& 0xFF00 ≠ 0 then 1 else 0, { st with pc := st.pc + 2 })
  | .IZX =>
    let t := (cread st st.pc + st.x) % 0x100
    let lo := cread st t
    let hi := cread st ((t + 1) % 0x100)
    (some (lo ||| (hi <<< 8)), 0, { st with pc := st.pc + 1 })
  | .IZY =>
    let t := cread st st.pc
    let lo := cread st t
    let hi := cread st ((t + 1) % 0x100)
    let a := lo ||| (hi <<< 8)
    let res := (a + st.y) % 0x10000
    (some res, if (a ^^^ res) &&& 0xFF00 ≠ 0 then 1 else 0, { st with pc := st.pc + 1 })
  | .IND =>
    let lo := cread st st.pc
    let hi := cread st (st.pc + 1)
    let ptr := lo ||| (hi <<< 8)
    -- 6502 page bug: the high byte comes from the same page as the low byte
    let l2 := cread st ptr
    let h2 := cread st ((ptr &&& 0xFF00) ||| ((ptr + 1) % 0x100))
    (some (l2 ||| (h2 <<< 8)), 0, { st with pc := st.pc + 2 })
  | .REL =>
    let off := cread st st.pc
    let pc := st.pc + 1
    (some (if off < 0x80 then pc + off else pc + off - 0x100), 0, { st with pc := pc })

/-- `CPU6502.execute`: one instruction's state change.  A `none` address
(implied mode) coerces to 0 like JavaScript `null` under the read/write
masks; no table entry pairs an implied mode with a memory-using
instruction. -/
def execute (ins : Ins) (mode : AddrMode) (addr : Option Nat) (st : CPUState) : CPUState :=
  let aaddr := addr.getD 0
  match ins with
  | .BRK =>
    let st := { st with pc := st.pc + 1 }
    let st := push st ((st.pc >>> 8) % 0x100)
    let st := push st (st.pc % 0x100)
    let st := setFlag st 4 true
    let st := setFlag st 5 true
    let st := setFlag st 2 true
    let st := push st st.p
    let lo := cread st 0xFFFE
    let hi := cread st 0xFFFF
    { st with pc := lo ||| (hi <<< 8) }
  | .NOP => st
  | .LDA => let st := { st with a := cread st aaddr }; setZN st st.a
  | .LDX => let st := { st with x := cread st aaddr }; setZN st st.x
  | .LDY => let st := { st with y := cread st aaddr }; setZN st st.y
  | .STA => cwrite st aaddr st.a
  | .STX => cwrite st aaddr st.x
  | .STY => cwrite st aaddr st.y
  | .TAX => let st := { st with x := st.a }; setZN st st.x
  | .TAY => let st := { st with y := st.a }; setZN st st.y
  | .TXA => let st := { st with a := st.x }; setZN st st.a
  | .TYA => let st := { st with a := st.y }; setZN st st.a
  | .TSX => let st := { st with x := st.sp }; setZN st st.x
  | .TXS => { st with sp := st.x }
  | .PHA => push st st.a
  | .PHP => push st (st.p ||| 0x10)
  | .PLA =>
    let r := pop st
    let st := { r.2 with a := r.1 }
    setZN st st.a
  | .PLP =>
    let r := pop st
    { r.2 with p := (r.1 &&& 0xEF) ||| 0x20 }
  | .AND => let st := { st with a := st.a &&& cread st aaddr }; setZN st st.a
  | .ORA => let st := { st with a := st.a ||| cread st aaddr }; setZN st st.a
  | .EOR => let st := { st with a := st.a ^^^ cread st aaddr }; setZN st st.a
  | .ADC => adc st (cread st aaddr)
  | .SBC => sbc st (cread st aaddr)
  | .CMP => cmp st st.a (cread st aaddr)
  | .CPX => cmp st st.x (cread st aaddr)
  | .CPY => cmp st st.y (cread st aaddr)
  | .INC =>
    let v := (cread st aaddr + 1) % 0x100
    let st := cwrite st aaddr v
    setZN st v
  | .INX => let st := { st with x := (st.x + 1) % 0x100 }; setZN st st.x
  | .INY => let st := { st with y := (st.y + 1) % 0x100 }; setZN st st.y
  | .DEC =>
    -- (v - 1) & 0xFF, written as the equivalent (v + 0xFF) % 0x100
    let v := (cread st aaddr + 0xFF) % 0x100
    let st := cwrite st aaddr v
    setZN st v
  | .DEX => let st := { st with x := (st.x + 0xFF) % 0x100 }; setZN st st.x
  | .DEY => let st := { st with y := (st.y + 0xFF) % 0x100 }; setZN st st.y
  | .ASL =>
    if mode = .IMP then
      let st := setFlag st 0 ((st.a >>> 7) % 2 != 0)
      let st := { st with a := (st.a <<< 1) % 0x100 }
      setZN st st.a
    else
      let v := cread st aaddr
      let st := setFlag st 0 ((v >>> 7) % 2 != 0)
      let r := (v <<< 1) % 0x100
      let st := cwrite st aaddr r
      setZN st r
  | .LSR =>
    if mode = .IMP then
      let st := setFlag st 0 (st.a % 2 != 0)
      let st := { st with a := (st.a >>> 1) % 0x100 }
      setZN st st.a
    else
      let v := cread st aaddr
      let st := setFlag st 0 (v % 2 != 0)
      let r := (v >>> 1) % 0x100
      let st := cwrite st aaddr r
      setZN st r
  | .ROL =>
    if mode = .IMP then
      let c := getFlag st 0
      let st := setFlag st 0 ((st.a >>> 7) % 2 != 0)
      let st := { st with a := ((st.a <<< 1) ||| c) % 0x100 }
      setZN st st.a
    else
      let v := cread st aaddr
      let c := getFlag st 0
      let st := setFlag st 0 ((v >>> 7) % 2 != 0)
      let r := ((v <<< 1) ||| c) % 0x100
      let st := cwrite st aaddr r
      setZN st r
  | .ROR =>
    if mode = .IMP then
      let c := getFlag st 0
      let st := setFlag st 0 (st.a % 2 != 0)
      let st := { st with a := ((st.a >>> 1) ||| (c <<< 7)) % 0x100 }
      setZN st st.a
    else
      let v := cread st aaddr
      let c := getFlag st 0
      let st := setFlag st 0 (v % 2 != 0)
      let r := ((v >>> 1) ||| (c <<< 7)) % 0x100
      let st := cwrite st aaddr r
      setZN st r
  | .BIT => bitIns st (cread st aaddr)
  | .JMP => { st with pc := aaddr }
  | .JSR =>
    -- ret = (pc - 1) & 0xFFFF, written as the equivalent (pc + 0xFFFF) % 0x10000
    let ret := (st.pc + 0xFFFF) % 0x10000
    let st := push st ((ret >>> 8) % 0x100)
    let st := push st (ret % 0x100)
    { st with pc := aaddr }
  | .RTS =>
    let rlo := pop st
    let rhi := pop rlo.2
    { rhi.2 with pc := ((rhi.1 <<< 8) ||| rlo.1) + 1 }
  | .RTI =>
    let rp := pop st
    let st := { rp.2 with p := (rp.1 &&& 0xEF) ||| 0x20 }
    let rlo := pop st
    let rhi := pop rlo.2
    { rhi.2 with pc := (rhi.1 <<< 8) ||| rlo.1 }
  | .BCC => branch st (getFlag st 0 == 0) aaddr
  | .BCS => branch st (getFlag st 0 == 1) aaddr
  | .BEQ => branch st (getFlag st 1 == 1) aaddr
  | .BMI => branch st (getFlag st 7 == 1) aaddr
  | .BNE => branch st (getFlag st 1 == 0) aaddr
  | .BPL => branch st (getFlag st 7 == 0) aaddr
  | .BVC => branch st (getFlag st 6 == 0) aaddr
  | .BVS => branch st (getFlag st 6 == 1) aaddr
  | .CLC => setFlag st 0 false
  | .SEC => setFlag st 0 true
  | .CLI => setFlag st 2 false
  | .SEI => setFlag st 2 true
  | .CLV => setFlag st 6 false
  | .CLD => setFlag st 3 false
  | .SED => setFlag st 3 true

/-- `CPU6502.buildOpcodes`: the opcode table (official-opcode subset of
`cpu6502.js`), as a partial map from opcode byte to entry. -/
def OPCODES : Nat → Option OpEntry
  | 0x00 => some ⟨.IMP, .BRK, 7⟩
  | 0xEA => some ⟨.IMP, .NOP, 2⟩
  | 0xA9 => some ⟨.IMM, .LDA, 2⟩
  | 0xA5 => some ⟨.ZP0, .LDA, 3⟩
  | 0xB5 => some ⟨.ZPX, .LDA, 4⟩
  | 0xAD => some ⟨.ABS, .LDA, 4⟩
  | 0xBD => some ⟨.ABX, .LDA, 4⟩
  | 0xB9 => some ⟨.ABY, .LDA, 4⟩
  | 0xA1 => some ⟨.IZX, .LDA, 6⟩
  | 0xB1 => some ⟨.IZY, .LDA, 5⟩
  | 0xA2 => some ⟨.IMM, .LDX, 2⟩
  | 0xA6 => some ⟨.ZP0, .LDX, 3⟩
  | 0xB6 => some ⟨.ZPY, .LDX, 4⟩
  | 0xAE => some ⟨.ABS, .LDX, 4⟩
  | 0xBE => some ⟨.ABY, .LDX, 4⟩
  | 0xA0 => some ⟨.IMM, .LDY, 2⟩
  | 0xA4 => some ⟨.ZP0, .LDY, 3⟩
  | 0xB4 => some ⟨.ZPX, .LDY, 4⟩
  | 0xAC => some ⟨.ABS, .LDY, 4⟩
  | 0xBC => some ⟨.ABX, .LDY, 4⟩
  | 0x85 => some ⟨.ZP0, .STA, 3⟩
  | 0x95 => some ⟨.ZPX, .STA, 4⟩
  | 0x8D => some ⟨.ABS, .STA, 4⟩
  | 0x9D => some ⟨.ABX, .STA, 5⟩
  | 0x99 => some ⟨.ABY, .STA, 5⟩
  | 0x81 => some ⟨.IZX, .STA, 6⟩
  | 0x91 => some ⟨.IZY, .STA, 6⟩
  | 0x86 => some ⟨.ZP0, .STX, 3⟩
  | 0x96 => some ⟨.ZPY, .STX, 4⟩
  | 0x8E => some ⟨.ABS, .STX, 4⟩
  | 0x84 => some ⟨.ZP0, .STY, 3⟩
  | 0x94 => some ⟨.ZPX, .STY, 4⟩
  | 0x8C => some ⟨.ABS, .STY, 4⟩
  | 0xAA => some ⟨.IMP, .TAX, 2⟩
  | 0xA8 => some ⟨.IMP, .TAY, 2⟩
  | 0x8A => some ⟨.IMP, .TXA, 2⟩
  | 0x98 => some ⟨.IMP, .TYA, 2⟩
  | 0xBA => some ⟨.IMP, .TSX, 2⟩
  | 0x9A => some ⟨.IMP, .TXS, 2⟩
  | 0x48 => some ⟨.IMP, .PHA, 3⟩
  | 0x08 => some ⟨.IMP, .PHP, 3⟩
  | 0x68 => some ⟨.IMP, .PLA, 4⟩
  | 0x28 => some ⟨.IMP, .PLP, 4⟩
  | 0x29 => some ⟨.IMM, .AND, 2⟩
  | 0x25 => some ⟨.ZP0, .AND, 3⟩
  | 0x35 => some ⟨.ZPX, .AND, 4⟩
  | 0x2D => some ⟨.ABS, .AND, 4⟩
  | 0x3D => some ⟨.ABX, .AND, 4⟩
  | 0x39 => some ⟨.ABY, .AND, 4⟩
  | 0x21 => some ⟨.IZX, .AND, 6⟩
  | 0x31 => some ⟨.IZY, .AND, 5⟩
  | 0x09 => some ⟨.IMM, .ORA, 2⟩
  | 0x05 => some ⟨.ZP0, .ORA, 3⟩
  | 0x15 => some ⟨.ZPX, .ORA, 4⟩
  | 0x0D => some ⟨.ABS, .ORA, 4⟩
  | 0x1D => some ⟨.ABX, .ORA, 4⟩
  | 0x19 => some ⟨.ABY, .ORA, 4⟩
  | 0x01 => some ⟨.IZX, .ORA, 6⟩
  | 0x11 => some ⟨.IZY, .ORA, 5⟩
  | 0x49 => some ⟨.IMM, .EOR, 2⟩
  | 0x45 => some ⟨.ZP0, .EOR, 3⟩
  | 0x55 => some ⟨.ZPX, .EOR, 4⟩
  | 0x4D => some ⟨.ABS, .EOR, 4⟩
  | 0x5D => some ⟨.ABX, .EOR, 4⟩
  | 0x59 => some ⟨.ABY, .EOR, 4⟩
  | 0x41 => some ⟨.IZX, .EOR, 6⟩
  | 0x51 => some ⟨.IZY, .EOR, 5⟩
  | 0x69 => some ⟨.IMM, .ADC, 2⟩
  | 0x65 => some ⟨.ZP0, .ADC, 3⟩
  | 0x75 => some ⟨.ZPX, .ADC, 4⟩
  | 0x6D => some ⟨.ABS, .ADC, 4⟩
  | 0x7D => some ⟨.ABX, .ADC, 4⟩
  | 0x79 => some ⟨.ABY, .ADC, 4⟩
  | 0x61 => some ⟨.IZX, .ADC, 6⟩
  | 0x71 => some ⟨.IZY, .ADC, 5⟩
  | 0xE9 => some ⟨.IMM, .SBC, 2⟩
  | 0xE5 => some ⟨.ZP0, .SBC, 3⟩
  | 0xF5 => some ⟨.ZPX, .SBC, 4⟩
  | 0xED => some ⟨.ABS, .SBC, 4⟩
  | 0xFD => some ⟨.ABX, .SBC, 4⟩
  | 0xF9 => some ⟨.ABY, .SBC, 4⟩
  | 0xE1 => some ⟨.IZX, .SBC, 6⟩
  | 0xF1 => some ⟨.IZY, .SBC, 5⟩
  | 0xC9 => some ⟨.IMM, .CMP, 2⟩
  | 0xC5 => some ⟨.ZP0, .CMP, 3⟩
  | 0xD5 => some ⟨.ZPX, .CMP, 4⟩
  | 0xCD => some ⟨.ABS, .CMP, 4⟩
  | 0xDD => some ⟨.ABX, .CMP, 4⟩
  | 0xD9 => some ⟨.ABY, .CMP, 4⟩
  | 0xC1 => some ⟨.IZX, .CMP, 6⟩
  | 0xD1 => some ⟨.IZY, .CMP, 5⟩
  | 0xE0 => some ⟨.IMM, .CPX, 2⟩
  | 0xE4 => some ⟨.ZP0, .CPX, 3⟩
  | 0xEC => some ⟨.ABS, .CPX, 4⟩
  | 0xC0 => some ⟨.IMM, .CPY, 2⟩
  | 0xC4 => some ⟨.ZP0, .CPY, 3⟩
  | 0xCC => some ⟨.ABS, .CPY, 4⟩
  | 0xE6 => some ⟨.ZP0, .INC, 5⟩
  | 0xF6 => some ⟨.ZPX, .INC, 6⟩
  | 0xEE => some ⟨.ABS, .INC, 6⟩
  | 0xFE => some ⟨.ABX, .INC, 7⟩
  | 0xC6 => some ⟨.ZP0, .DEC, 5⟩
  | 0xD6 => some ⟨.ZPX, .DEC, 6⟩
  | 0xCE => some ⟨.ABS, .DEC, 6⟩
  | 0xDE => some ⟨.ABX, .DEC, 7⟩
  | 0xE8 => some ⟨.IMP, .INX, 2⟩
  | 0xC8 => some ⟨.IMP, .INY, 2⟩
  | 0xCA => some ⟨.IMP, .DEX, 2⟩
  | 0x88 => some ⟨.IMP, .DEY, 2⟩
  | 0x0A => some ⟨.IMP, .ASL, 2⟩
  | 0x06 => some ⟨.ZP0, .ASL, 5⟩
  | 0x16 => some ⟨.ZPX, .ASL, 6⟩
  | 0x0E => some ⟨.ABS, .ASL, 6⟩
  | 0x1E => some ⟨.ABX, .ASL, 7⟩
  | 0x4A => some ⟨.IMP, .LSR, 2⟩
  | 0x46 => some ⟨.ZP0, .LSR, 5⟩
  | 0x56 => some ⟨.ZPX, .LSR, 6⟩
  | 0x4E => some ⟨.ABS, .LSR, 6⟩
  | 0x5E => some ⟨.ABX, .LSR, 7⟩
  | 0x2A => some ⟨.IMP, .ROL, 2⟩
  | 0x26 => some ⟨.ZP0, .ROL, 5⟩
  | 0x36 => some ⟨.ZPX, .ROL, 6⟩
  | 0x2E => some ⟨.ABS, .ROL, 6⟩
  | 0x3E => some ⟨.ABX, .ROL, 7⟩
  | 0x6A => some ⟨.IMP, .ROR, 2⟩
  | 0x66 => some ⟨.ZP0, .ROR, 5⟩
  | 0x76 => some ⟨.ZPX, .ROR, 6⟩
  | 0x6E => some ⟨.ABS, .ROR, 6⟩
  | 0x7E => some ⟨.ABX, .ROR, 7⟩
  | 0x24 => some ⟨.ZP0, .BIT, 3⟩
  | 0x2C => some ⟨.ABS, .BIT, 4⟩
  | 0x4C => some ⟨.ABS, .JMP, 3⟩
  | 0x6C => some ⟨.IND, .JMP, 5⟩
  | 0x20 => some ⟨.ABS, .JSR, 6⟩
  | 0x60 => some ⟨.IMP, .RTS, 6⟩
  | 0x40 => some ⟨.IMP, .RTI, 6⟩
  | 0x90 => some ⟨.REL, .BCC, 2⟩
  | 0xB0 => some ⟨.REL, .BCS, 2⟩
  | 0xF0 => some ⟨.REL, .BEQ, 2⟩
  | 0x30 => some ⟨.REL, .BMI, 2⟩
  | 0xD0 => some ⟨.REL, .BNE, 2⟩
  | 0x10 => some ⟨.REL, .BPL, 2⟩
  | 0x50 => some ⟨.REL, .BVC, 2⟩
  | 0x70 => some ⟨.REL, .BVS, 2⟩
  | 0x18 => some ⟨.IMP, .CLC, 2⟩
  | 0x38 => some ⟨.IMP, .SEC, 2⟩
  | 0x58 => some ⟨.IMP, .CLI, 2⟩
  | 0x78 => some ⟨.IMP, .SEI, 2⟩
  | 0xB8 => some ⟨.IMP, .CLV, 2⟩
  | 0xD8 => some ⟨.IMP, .CLD, 2⟩
  | 0xF8 => some ⟨.IMP, .SED, 2⟩
  | _ => none

/-- `CPU6502.step`: execute one instruction (or burn one stall cycle) and
return the new state with the cycle count the instruction took.  A fetch
with no table entry returns 1 after advancing PC ("treat unknown opcode
as NOP (1 cycle) to avoid lock"). -/
def step (st : CPUState) : CPUState × Nat :=
  if 0 < st.stall then
    ({ st with stall := st.stall - 1, cycles := st.cycles + 1 }, 1)
  else
    let op := cread st st.pc
    let st := { st with pc := st.pc + 1 }
    match OPCODES op with
    | none => (st, 1)
    | some entry =>
      let r := fetchAddr entry.mode st
      let st := r.2.2
      let cyclesBefore := st.cycles
      let st := execute entry.ins entry.mode r.1 st
      let st := { st with cycles := st.cycles + entry.cy + r.2.1 }
      (st, st.cycles - cyclesBefore)

/-- The `CPU6502` constructor register state with an all-zero bus. -/
def initCPU : CPUState :=
  { a := 0, x := 0, y := 0, sp := 0xFD, p := 0x24, pc := 0, cycles := 0,
    stall := 0, mem := fun _ => 0 }

end CPU6502

/-! ## Theorems -/

/-- `dmaAux` leaves every index untouched that is not among the keys it
writes. -/
theorem dmaAux_untouched (a : Nat) (buf : Nat → Nat) :
    ∀ rem oam i k, (∀ j, j < rem → k ≠ (a + i + j) % 256) →
      PPU.dmaAux a buf oam i rem k = oam k := by
  intro rem
  induction rem with
  | zero => intro oam i k _; rfl
  | succ n ih =>
    intro oam i k h
    show PPU.dmaAux a buf (updFn oam ((a + i) % 256) (buf i)) (i + 1) n k = oam k
    rw [ih]
    · have hk : k ≠ (a + i) % 256 := by
        have := h 0 (Nat.succ_pos n)
        simpa using this
      simp [updFn, hk]
    · intro j hj
      have := h (j + 1) (by omega)
      have harg : a + i + (j + 1) = a + (i + 1) + j := by omega
      rw [harg] at this
      exact this

/-- `dmaAux` writes `buf (i + j)` at key `(a + i + j) % 256` for each of
its iterations (the keys are distinct while at most 256 writes occur). -/
theorem dmaAux_written (a : Nat) (buf : Nat → Nat) :
    ∀ rem, rem ≤ 256 → ∀ oam i j, j < rem →
      PPU.dmaAux a buf oam i rem ((a + i + j) % 256) = buf (i + j) := by
  intro rem
  induction rem with
  | zero => intro _ oam i j hj; omega
  | succ n ih =>
    intro hrem oam i j hj
    show PPU.dmaAux a buf (updFn oam ((a + i) % 256) (buf i)) (i + 1) n ((a + i + j) % 256)
      = buf (i + j)
    rcases Nat.eq_zero_or_pos j with rfl | hjpos
    · rw [dmaAux_untouched]
      · simp [updFn]
      · intro j' hj'
        have : j' + 1 < 256 := by omega
        omega
    · have harg : a + i + j = a + (i + 1) + (j - 1) := by omega
      rw [harg, ih (by omega) _ (i + 1) (j - 1) (by omega)]
      congr 1
      omega

set_option maxRecDepth 100000 in
/-- C10: `PPU.doDMA` leaves `oamaddr` unchanged, writes `buf i` to
`oam[(oamaddr + i) mod 256]` for `i = 0..255`, and never writes outside
the 256-byte OAM (every index at or above 256 is untouched). -/
theorem C10_doDMA_wraps_in_bounds (st : PPUState) (buf : Nat → Nat) :
    (PPU.doDMA st buf).oamaddr = st.oamaddr ∧
    (∀ i, i < 256 → (PPU.doDMA st buf).oam ((st.oamaddr + i) % 256) = buf i) ∧
    (∀ j, 256 ≤ j → (PPU.doDMA st buf).oam j = st.oam j) := by
  refine ⟨rfl, ?_, ?_⟩
  · intro i hi
    show PPU.dmaAux st.oamaddr buf st.oam 0 256 ((st.oamaddr + i) % 256) = buf i
    have h0 : st.oamaddr + i = st.oamaddr + 0 + i := by omega
    rw [h0, dmaAux_written st.oamaddr buf 256 (le_refl 256) st.oam 0 i hi, Nat.zero_add]
  · intro j hj
    show PPU.dmaAux st.oamaddr buf st.oam 0 256 j = st.oam j
    apply dmaAux_untouched
    intro j' _
    have : (st.oamaddr + 0 + j') % 256 < 256 := Nat.mod_lt _ (by omega)
    omega

set_option maxRecDepth 100000 in
/-- Witness for C10 at a concrete state: `oamaddr = 250`, so the write for
`i = 10` wraps to OAM index 4, and index 300 is untouched. -/
theorem C10_doDMA_wraps_in_bounds_witness :
    ((10 : Nat) < 256 ∧
      (PPU.doDMA { PPU.init with oamaddr := 250 } (fun i => (i + 3) % 256)).oam
        ((250 + 10) % 256) = (10 + 3) % 256) ∧
    ((256 : Nat) ≤ 300 ∧
      (PPU.doDMA { PPU.init with oamaddr := 250 } (fun i => (i + 3) % 256)).oam 300 = 0) :=
  ⟨⟨by decide,
    (C10_doDMA_wraps_in_bounds { PPU.init with oamaddr := 250 } (fun i => (i + 3) % 256)).2.1
      10 (by decide)⟩,
   ⟨by decide,
    (C10_doDMA_wraps_in_bounds { PPU.init with oamaddr := 250 } (fun i => (i + 3) % 256)).2.2
      300 (by decide)⟩⟩

/-- C9: on a Mapper 1 PRG-area write with bit 7 of the value set,
`writeReg` resets the shift register to `0x10` and ORs control with
`0x0C`, leaving every other mapper field unchanged — regardless of the
prior shift-register contents. -/
theorem C9_mmc1_shift_reset (m : Mapper1State) (addr val : Nat)
    (h : val &&& 0x80 ≠ 0) :
    Mapper1.writeReg m addr val = { m with shift := 0x10, ctrl := m.ctrl ||| 0x0C } := by
  unfold Mapper1.writeReg
  rw [if_pos h]

/-- Witness for C9: a partially-shifted register (3 bits in) is reset by a
$80 write at $9234. -/
theorem C9_mmc1_shift_reset_witness :
    ((0x80 : Nat) &&& 0x80 ≠ 0) ∧
    Mapper1.writeReg ⟨0x07, 0x03, 1, 2, 3, Mirror.vertical⟩ 0x9234 0x80 =
      ⟨0x10, 0x03 ||| 0x0C, 1, 2, 3, Mirror.vertical⟩ :=
  ⟨by decide, C9_mmc1_shift_reset ⟨0x07, 0x03, 1, 2, 3, Mirror.vertical⟩ 0x9234 0x80 (by decide)⟩

/-- The palette index only depends on the palette offset modulo 32. -/
theorem paletteIndex_mod32 (k : Nat) :
    PPU.paletteIndex (0x3F00 + k) = PPU.paletteIndex (0x3F00 + k % 32) := by
  unfold PPU.paletteIndex
  have h : (0x3F00 + k) % 0x20 = (0x3F00 + k % 32) % 0x20 := by omega
  rw [h]

/-- C5: palette RAM is 32 bytes mirrored every 32 bytes across
$3F00-$3FFF, with $3F10/$3F14/$3F18/$3F1C aliasing $3F00/$3F04/$3F08/$3F0C
for both reads and writes; in particular the two round trips of the claim
hold. -/
theorem C5_palette_mirroring :
    (∀ st : PPUState, PPU.ppuRead (PPU.ppuWrite st 0x3F10 0x0A) 0x3F00 = 0x0A) ∧
    (∀ st : PPUState, PPU.ppuRead (PPU.ppuWrite st 0x3F04 0x17) 0x3F14 = 0x17) ∧
    (∀ st : PPUState, ∀ k, k < 0x100 →
      PPU.ppuRead st (0x3F00 + k) = PPU.ppuRead st (0x3F00 + k % 32)) ∧
    (∀ st : PPUState,
      PPU.ppuRead st 0x3F10 = PPU.ppuRead st 0x3F00 ∧
      PPU.ppuRead st 0x3F14 = PPU.ppuRead st 0x3F04 ∧
      PPU.ppuRead st 0x3F18 = PPU.ppuRead st 0x3F08 ∧
      PPU.ppuRead st 0x3F1C = PPU.ppuRead st 0x3F0C) ∧
    (∀ st : PPUState, ∀ v,
      PPU.ppuWrite st 0x3F10 v = PPU.ppuWrite st 0x3F00 v ∧
      PPU.ppuWrite st 0x3F14 v = PPU.ppuWrite st 0x3F04 v ∧
      PPU.ppuWrite st 0x3F18 v = PPU.ppuWrite st 0x3F08 v ∧
      PPU.ppuWrite st 0x3F1C v = PPU.ppuWrite st 0x3F0C v) := by
  have h16 : (16 &&& 19 : Nat) = 16 := by decide
  have h20 : (20 &&& 19 : Nat) = 16 := by decide
  have h24 : (24 &&& 19 : Nat) = 16 := by decide
  have h28 : (28 &&& 19 : Nat) = 16 := by decide
  refine ⟨?_, ?_, ?_, ?_, ?_⟩
  · intro st
    simp [PPU.ppuRead, PPU.ppuWrite, PPU.paletteIndex, updFn, h16, h20]
  · intro st
    simp [PPU.ppuRead, PPU.ppuWrite, PPU.paletteIndex, updFn, h16, h20]
  · intro st k hk
    have e1 : (0x3F00 + k) % 0x4000 = 0x3F00 + k := by omega
    have e2 : (0x3F00 + k % 32) % 0x4000 = 0x3F00 + k % 32 := by omega
    unfold PPU.ppuRead
    rw [e1, e2, if_neg (by omega), if_neg (by omega), if_neg (by omega), if_neg (by omega),
      paletteIndex_mod32]
  · intro st
    refine ⟨?_, ?_, ?_, ?_⟩ <;> simp [PPU.ppuRead, PPU.paletteIndex, h16, h20, h24, h28]
  · intro st v
    refine ⟨?_, ?_, ?_, ?_⟩ <;> simp [PPU.ppuWrite, PPU.paletteIndex, h16, h20, h24, h28]

/-- Witness for C5: the mirror-every-32 conjunct applied at `k = 0x57`
(address $3F57 aliases $3F17) on the constructor state. -/
theorem C5_palette_mirroring_witness :
    ((0x57 : Nat) < 0x100) ∧
    PPU.ppuRead PPU.init (0x3F00 + 0x57) = PPU.ppuRead PPU.init (0x3F00 + 0x57 % 32) :=
  ⟨by decide, C5_palette_mirroring.2.2.1 PPU.init 0x57 (by decide)⟩

/-- `Bus.cpuWrite` on an internal-RAM address stores the masked byte at
the mirrored RAM index. -/
theorem cpuWrite_ram (st : BusState) (v : Nat) {a : Nat} (h : a < 0x2000) :
    Bus.cpuWrite st a v = { st with ram := updFn st.ram (a % 0x800) (v % 0x100) } := by
  unfold Bus.cpuWrite
  rw [Nat.mod_eq_of_lt (by omega : a < 0x10000), if_pos h]

/-- `Bus.cpuRead` on an internal-RAM address returns the mirrored RAM byte
and changes nothing. -/
theorem cpuRead_ram (st : BusState) {a : Nat} (h : a < 0x2000) :
    Bus.cpuRead st a = (st.ram (a % 0x800), st) := by
  unfold Bus.cpuRead
  rw [Nat.mod_eq_of_lt (by omega : a < 0x10000), if_pos h]

/-- C6: a RAM write at `a < $2000` is visible at every address in the
mirrored set `{a & 0x7FF, +0x800, +0x1000, +0x1800}`. -/
theorem C6_ram_mirroring (st : BusState) (a v a' : Nat)
    (ha : a < 0x2000) (hv : v < 0x100)
    (ha' : a' = a % 0x800 ∨ a' = a % 0x800 + 0x800 ∨
           a' = a % 0x800 + 0x1000 ∨ a' = a % 0x800 + 0x1800) :
    (Bus.cpuRead (Bus.cpuWrite st a v) a').1 = v := by
  rw [cpuWrite_ram st v ha]
  have ha'lt : a' < 0x2000 := by
    have := Nat.mod_lt a (y := 0x800) (by omega)
    omega
  rw [cpuRead_ram _ ha'lt]
  have hk : a' % 0x800 = a % 0x800 := by omega
  simp [updFn, hk, Nat.mod_eq_of_lt hv]

/-- Witness for C6: write $AB to $0123, read it back at $1923. -/
theorem C6_ram_mirroring_witness :
    ((0x123 : Nat) < 0x2000 ∧ (0xAB : Nat) < 0x100 ∧ (0x1923 : Nat) = 0x123 % 0x800 + 0x1800) ∧
    (Bus.cpuRead
      (Bus.cpuWrite ⟨fun _ => 0, PPU.init, [], fun _ => 0, ⟨0, 0, false⟩, ⟨0, 0, false⟩,
        fun _ => 0⟩ 0x123 0xAB) 0x1923).1 = 0xAB :=
  ⟨⟨by decide, by decide, by decide⟩,
   C6_ram_mirroring
     ⟨fun _ => 0, PPU.init, [], fun _ => 0, ⟨0, 0, false⟩, ⟨0, 0, false⟩, fun _ => 0⟩
     0x123 0xAB 0x1923 (by decide) (by decide) (by decide)⟩

/-- A CPU state whose next fetch is the unofficial opcode $02. -/
def c2state : CPUState :=
  { CPU6502.initCPU with mem := fun a => if a = 0 then 0x02 else 0 }

/-- C2 counterexample: opcode $02 has no table entry, and `step` charges
exactly 1 cycle for it — not the 2 cycles the claim states. -/
theorem C2_unknown_opcode_counterexample :
    CPU6502.OPCODES (CPU6502.cread c2state c2state.pc) = none ∧
    (CPU6502.step c2state).2 = 1 ∧ (CPU6502.step c2state).2 ≠ 2 :=
  ⟨by decide, by decide, by decide⟩

/-- C2 (amended): for every opcode byte with no table entry, `step`
treats the fetch as a NOP that costs exactly 1 cycle and returns
normally — the entire state change is `pc := pc + 1`. -/
theorem C2_unknown_opcode_nop (st : CPUState) (hs : st.stall = 0)
    (h : CPU6502.OPCODES (CPU6502.cread st st.pc) = none) :
    CPU6502.step st = ({ st with pc := st.pc + 1 }, 1) := by
  simp [CPU6502.step, hs, h]

/-- Witness for the amended C2 at the concrete $02-fetch state. -/
theorem C2_unknown_opcode_nop_witness :
    c2state.stall = 0 ∧
    CPU6502.OPCODES (CPU6502.cread c2state c2state.pc) = none ∧
    CPU6502.step c2state = ({ c2state with pc := c2state.pc + 1 }, 1) :=
  ⟨rfl, by decide, C2_unknown_opcode_nop c2state rfl (by decide)⟩

/-- C8: JMP indirect at $8000 with pointer $10FF takes the high byte from
$1000 (same page as the low byte), not $1100: PC becomes $1234, not
$5634. -/
theorem C8_jmp_indirect_page_wrap (st : CPUState) (hs : st.stall = 0)
    (hpc : st.pc = 0x8000)
    (h0 : st.mem 0x8000 = 0x6C) (h1 : st.mem 0x8001 = 0xFF) (h2 : st.mem 0x8002 = 0x10)
    (h3 : st.mem 0x10FF = 0x34) (h4 : st.mem 0x1000 = 0x12) (_h5 : st.mem 0x1100 = 0x56) :
    (CPU6502.step st).1.pc = 0x1234 ∧ (CPU6502.step st).1.pc ≠ 0x5634 := by
  have hop : CPU6502.OPCODES 0x6C = some ⟨.IND, .JMP, 5⟩ := rfl
  have e1 : (0xFF ||| (0x10 <<< 8) : Nat) = 0x10FF := by decide
  have e2 : ((0x10FF &&& 0xFF00) ||| ((0x10FF + 1) % 0x100) : Nat) = 0x1000 := by decide
  have e3 : (0x34 ||| (0x12 <<< 8) : Nat) = 0x1234 := by decide
  have main : (CPU6502.step st).1.pc = 0x1234 := by
    simp only [CPU6502.step, CPU6502.cread, CPU6502.fetchAddr, CPU6502.execute,
      hpc, hs, h0, h1, h2, h3, h4, hop, e1, e2, e3]
    norm_num [h1, h2, h3, h4, e1, e2, e3, hop]
  exact ⟨main, by rw [main]; decide⟩

/-- The concrete C8 scenario memory: `6C FF 10` at $8000, pointer bytes at
$10FF/$1000, and the would-be-wrong byte at $1100. -/
def c8state : CPUState :=
  { CPU6502.initCPU with
    pc := 0x8000,
    mem := fun a =>
      if a = 0x8000 then 0x6C else if a = 0x8001 then 0xFF else if a = 0x8002 then 0x10
      else if a = 0x10FF then 0x34 else if a = 0x1000 then 0x12
      else if a = 0x1100 then 0x56 else 0 }

/-- Witness for C8 at the concrete scenario state. -/
theorem C8_jmp_indirect_page_wrap_witness :
    (c8state.stall = 0 ∧ c8state.pc = 0x8000 ∧ c8state.mem 0x8000 = 0x6C ∧
      c8state.mem 0x8001 = 0xFF ∧ c8state.mem 0x8002 = 0x10 ∧ c8state.mem 0x10FF = 0x34 ∧
      c8state.mem 0x1000 = 0x12 ∧ c8state.mem 0x1100 = 0x56) ∧
    (CPU6502.step c8state).1.pc = 0x1234 ∧ (CPU6502.step c8state).1.pc ≠ 0x5634 :=
  ⟨⟨rfl, rfl, by decide, by decide, by decide, by decide, by decide, by decide⟩,
   C8_jmp_indirect_page_wrap c8state rfl rfl (by decide) (by decide) (by decide) (by decide)
     (by decide) (by decide)⟩

section

attribute [local irreducible] PPU.ppuRead

/-- C4: a $2007 read returns the buffered byte and refills the buffer from
`ppuRead(v)` when `v & 0x3FFF` is below $3F00; for palette addresses it
returns the palette byte directly and refills the buffer from the
nametable mirror at `v - $1000`; in both cases `v` is incremented by 1 or
32 according to ctrl bit 2. -/
theorem C4_ppudata_buffered_read (st : PPUState) :
    (st.v % 0x4000 < 0x3F00 →
      (PPU.read st 0x2007).1 = st.buffered ∧
      (PPU.read st 0x2007).2.buffered = PPU.ppuRead st (st.v % 0x4000) ∧
      (PPU.read st 0x2007).2.v =
        (st.v + (if st.ctrl &&& 0x04 ≠ 0 then 32 else 1)) % 0x8000) ∧
    (0x3F00 ≤ st.v % 0x4000 →
      (PPU.read st 0x2007).1 = st.palette (PPU.paletteIndex (st.v % 0x4000)) % 0x40 ∧
      (PPU.read st 0x2007).2.buffered =
        st.vram (PPU.ntIndex st (st.v % 0x4000 - 0x1000) % 0x800) ∧
      (PPU.read st 0x2007).2.v =
        (st.v + (if st.ctrl &&& 0x04 ≠ 0 then 32 else 1)) % 0x8000) := by
  constructor
  · intro h
    have hread : PPU.read st 0x2007 =
        (st.buffered,
         { st with buffered := PPU.ppuRead st (st.v % 0x4000),
                   v := (st.v + (if st.ctrl &&& 0x04 ≠ 0 then 32 else 1)) % 0x8000 }) := by
      unfold PPU.read
      rw [if_neg (by decide : ¬((0x2007 : Nat) % 8 = 2)),
          if_neg (by decide : ¬((0x2007 : Nat) % 8 = 4)),
          if_pos (by decide : ((0x2007 : Nat) % 8 = 7)),
          if_neg (by omega : ¬(0x3F00 ≤ st.v % 0x4000))]
    rw [hread]
    exact ⟨rfl, rfl, rfl⟩
  · intro h
    have hv4 : st.v % 0x4000 < 0x4000 := Nat.mod_lt _ (by omega)
    have hpal : PPU.ppuRead st (st.v % 0x4000) =
        st.palette (PPU.paletteIndex (st.v % 0x4000)) % 0x40 := by
      unfold PPU.ppuRead
      have e : (st.v % 0x4000) % 0x4000 = st.v % 0x4000 := by omega
      rw [e, if_neg (by omega), if_neg (by omega)]
    have hnt : PPU.ppuRead st (st.v % 0x4000 - 0x1000) =
        st.vram (PPU.ntIndex st (st.v % 0x4000 - 0x1000) % 0x800) := by
      unfold PPU.ppuRead
      have e : (st.v % 0x4000 - 0x1000) % 0x4000 = st.v % 0x4000 - 0x1000 := by omega
      rw [e, if_neg (by omega), if_pos (by omega)]
    have hread : PPU.read st 0x2007 =
        (PPU.ppuRead st (st.v % 0x4000),
         { st with buffered := PPU.ppuRead st (st.v % 0x4000 - 0x1000),
                   v := (st.v + (if st.ctrl &&& 0x04 ≠ 0 then 32 else 1)) % 0x8000 }) := by
      unfold PPU.read
      rw [if_neg (by decide : ¬((0x2007 : Nat) % 8 = 2)),
          if_neg (by decide : ¬((0x2007 : Nat) % 8 = 4)),
          if_pos (by decide : ((0x2007 : Nat) % 8 = 7)),
          if_pos h]
    rw [hread]
    exact ⟨hpal, hnt, rfl⟩

end

/-- A $2007-read state below the palette range (`v = $2000`). -/
def c4stateA : PPUState := { PPU.init with v := 0x2000, buffered := 0x55 }

/-- A $2007-read state in the palette range (`v = $3F15`). -/
def c4stateB : PPUState := { PPU.init with v := 0x3F15 }

/-- Witness for C4 at the two concrete states (buffered path and palette
path). -/
theorem C4_ppudata_buffered_read_witness :
    (c4stateA.v % 0x4000 < 0x3F00 ∧
      (PPU.read c4stateA 0x2007).1 = c4stateA.buffered ∧
      (PPU.read c4stateA 0x2007).2.buffered = PPU.ppuRead c4stateA (c4stateA.v % 0x4000) ∧
      (PPU.read c4stateA 0x2007).2.v =
        (c4stateA.v + (if c4stateA.ctrl &&& 0x04 ≠ 0 then 32 else 1)) % 0x8000) ∧
    (0x3F00 ≤ c4stateB.v % 0x4000 ∧
      (PPU.read c4stateB 0x2007).1 =
        c4stateB.palette (PPU.paletteIndex (c4stateB.v % 0x4000)) % 0x40 ∧
      (PPU.read c4stateB 0x2007).2.buffered =
        c4stateB.vram (PPU.ntIndex c4stateB (c4stateB.v % 0x4000 - 0x1000) % 0x800) ∧
      (PPU.read c4stateB 0x2007).2.v =
        (c4stateB.v + (if c4stateB.ctrl &&& 0x04 ≠ 0 then 32 else 1)) % 0x8000) :=
  ⟨⟨by decide, (C4_ppudata_buffered_read c4stateA).1 (by decide)⟩,
   ⟨by decide, (C4_ppudata_buffered_read c4stateB).2 (by decide)⟩⟩

/-- A bus whose RAM holds `a % 256` at address `a`, with the PPU's
`oamaddr` at 5. -/
def c3bus : BusState :=
  { ram := fun a => a % 256, ppu := { PPU.init with oamaddr := 5 }, prg := [],
    sram := fun _ => 0, ctrl1 := ⟨0, 0, false⟩, ctrl2 := ⟨0, 0, false⟩,
    apuRegs := fun _ => 0 }

set_option maxRecDepth 100000 in
/-- C3: writing $4014 performs the 256-byte OAM copy from the CPU page
(wrapping at `oamaddr`), but nothing else changes — in particular the Bus
never touches any CPU cycle state, so the DMA costs 0 CPU cycles (the
source's `cpu.stall` is only ever decremented, never set). -/
theorem C3_dma_copy_without_cycle_cost :
    (Bus.cpuWrite c3bus 0x4014 0).ppu.oam 5 = 0 ∧
    (Bus.cpuWrite c3bus 0x4014 0).ppu.oam 6 = 1 ∧
    (Bus.cpuWrite c3bus 0x4014 0).ppu.oam 4 = 255 ∧
    (Bus.cpuWrite c3bus 0x4014 0).ppu.oamaddr = 5 ∧
    (Bus.cpuWrite c3bus 0x4014 0).ram = c3bus.ram ∧
    (Bus.cpuWrite c3bus 0x4014 0).sram = c3bus.sram ∧
    (Bus.cpuWrite c3bus 0x4014 0).ctrl1 = c3bus.ctrl1 ∧
    (Bus.cpuWrite c3bus 0x4014 0).ppu.cycle = c3bus.ppu.cycle :=
  ⟨by decide, by decide, by decide, by decide, rfl, rfl, rfl, by decide⟩

/-- A PPU state rendering dot x = 0 with both rendering bits of mask on
but the left-8-pixel show bits (mask bits 1-2) off, a non-zero background
pixel, and sprite 0 in slot 0 with a non-zero pixel at X counter 0. -/
def c1ppu : PPUState :=
  { PPU.init with
    mask := 0x18,
    spriteZeroInLine := true,
    bgShiftLo := 0x8000,
    spriteY := fun i => if i = 0 then 0 else 0xFF,
    spriteShiftsLo := fun i => if i = 0 then 0x80 else 0 }

/-- C1: at dot x = 0 (inside the left 8 pixels) with mask bits 1-2 clear,
the source still sets the sprite-0 hit flag (status bit 6): the left-8
gating required by the claim is absent from `renderPixel`. -/
theorem C1_sprite0_hit_ignores_left8_mask :
    c1ppu.mask &&& 0x18 = 0x18 ∧
    c1ppu.mask &&& 0x06 = 0 ∧
    c1ppu.status &&& 0x40 = 0 ∧
    (PPU.renderPixel c1ppu 0 0).status &&& 0x40 = 0x40 :=
  ⟨by decide, by decide, by decide, by decide⟩

section

attribute [local irreducible] PPU.ppuRead

/-- ORing a constant with bit 7 clear does not change bit 7. -/
theorem testBit7_or (s m : Nat) (hm : m.testBit 7 = false) :
    (s ||| m).testBit 7 = s.testBit 7 := by
  rw [Nat.testBit_lor, hm, Bool.or_false]

/-- The background fetches and latch loads touch neither `status`, `nmi`,
`scanline` nor `cycle`. -/
theorem fetchName_keeps (st : PPUState) :
    (PPU.fetchName st).status = st.status ∧ (PPU.fetchName st).nmi = st.nmi ∧
    (PPU.fetchName st).scanline = st.scanline ∧ (PPU.fetchName st).cycle = st.cycle :=
  ⟨rfl, rfl, rfl, rfl⟩

theorem fetchAttr_keeps (st : PPUState) :
    (PPU.fetchAttr st).status = st.status ∧ (PPU.fetchAttr st).nmi = st.nmi ∧
    (PPU.fetchAttr st).scanline = st.scanline ∧ (PPU.fetchAttr st).cycle = st.cycle :=
  ⟨rfl, rfl, rfl, rfl⟩

theorem fetchPatternLow_keeps (st : PPUState) :
    (PPU.fetchPatternLow st).status = st.status ∧ (PPU.fetchPatternLow st).nmi = st.nmi ∧
    (PPU.fetchPatternLow st).scanline = st.scanline ∧
    (PPU.fetchPatternLow st).cycle = st.cycle :=
  ⟨rfl, rfl, rfl, rfl⟩

theorem fetchPatternHigh_keeps (st : PPUState) :
    (PPU.fetchPatternHigh st).status = st.status ∧ (PPU.fetchPatternHigh st).nmi = st.nmi ∧
    (PPU.fetchPatternHigh st).scanline = st.scanline ∧
    (PPU.fetchPatternHigh st).cycle = st.cycle :=
  ⟨rfl, rfl, rfl, rfl⟩

theorem loadBGShiftRegisters_keeps (st : PPUState) :
    (PPU.loadBGShiftRegisters st).status = st.status ∧
    (PPU.loadBGShiftRegisters st).nmi = st.nmi ∧
    (PPU.loadBGShiftRegisters st).scanline = st.scanline ∧
    (PPU.loadBGShiftRegisters st).cycle = st.cycle :=
  ⟨rfl, rfl, rfl, rfl⟩

/-- The scroll-register helpers touch neither `status`, `nmi`, `scanline`
nor `cycle`. -/
theorem incCoarseX_keeps (st : PPUState) :
    (PPU.incCoarseX st).status = st.status ∧ (PPU.incCoarseX st).nmi = st.nmi ∧
    (PPU.incCoarseX st).scanline = st.scanline ∧ (PPU.incCoarseX st).cycle = st.cycle := by
  unfold PPU.incCoarseX
  split <;> exact ⟨rfl, rfl, rfl, rfl⟩

theorem incY_keeps (st : PPUState) :
    (PPU.incY st).status = st.status ∧ (PPU.incY st).nmi = st.nmi ∧
    (PPU.incY st).scanline = st.scanline ∧ (PPU.incY st).cycle = st.cycle := by
  unfold PPU.incY
  split <;> exact ⟨rfl, rfl, rfl, rfl⟩

theorem copyX_keeps (st : PPUState) :
    (PPU.copyX st).status = st.status ∧ (PPU.copyX st).nmi = st.nmi ∧
    (PPU.copyX st).scanline = st.scanline ∧ (PPU.copyX st).cycle = st.cycle :=
  ⟨rfl, rfl, rfl, rfl⟩

theorem copyY_keeps (st : PPUState) :
    (PPU.copyY st).status = st.status ∧ (PPU.copyY st).nmi = st.nmi ∧
    (PPU.copyY st).scanline = st.scanline ∧ (PPU.copyY st).cycle = st.cycle :=
  ⟨rfl, rfl, rfl, rfl⟩

theorem backdropFill_keeps (st : PPUState) (x y : Nat) :
    (PPU.backdropFill st x y).status = st.status ∧ (PPU.backdropFill st x y).nmi = st.nmi ∧
    (PPU.backdropFill st x y).scanline = st.scanline ∧
    (PPU.backdropFill st x y).cycle = st.cycle :=
  ⟨rfl, rfl, rfl, rfl⟩

/-- The sprite shift/decrement loop changes none of `status`, `nmi`,
`scanline`, `cycle`. -/
theorem sprShiftLoop_keeps :
    ∀ rem st i, (PPU.sprShiftLoop st i rem).status = st.status ∧
      (PPU.sprShiftLoop st i rem).nmi = st.nmi ∧
      (PPU.sprShiftLoop st i rem).scanline = st.scanline ∧
      (PPU.sprShiftLoop st i rem).cycle = st.cycle := by
  intro rem
  induction rem with
  | zero => intro st i; exact ⟨rfl, rfl, rfl, rfl⟩
  | succ n ih =>
    have ih1 : ∀ st i, (PPU.sprShiftLoop st i n).status = st.status := fun st i => (ih st i).1
    have ih2 : ∀ st i, (PPU.sprShiftLoop st i n).nmi = st.nmi := fun st i => (ih st i).2.1
    have ih3 : ∀ st i, (PPU.sprShiftLoop st i n).scanline = st.scanline :=
      fun st i => (ih st i).2.2.1
    have ih4 : ∀ st i, (PPU.sprShiftLoop st i n).cycle = st.cycle := fun st i => (ih st i).2.2.2
    intro st i
    refine ⟨?_, ?_, ?_, ?_⟩
    · simp only [PPU.sprShiftLoop, ih1, apply_ite PPUState.status, ite_self]
    · simp only [PPU.sprShiftLoop, ih2, apply_ite PPUState.nmi, ite_self]
    · simp only [PPU.sprShiftLoop, ih3, apply_ite PPUState.scanline, ite_self]
    · simp only [PPU.sprShiftLoop, ih4, apply_ite PPUState.cycle, ite_self]

theorem stepShifters_keeps (st : PPUState) :
    (PPU.stepShifters st).status = st.status ∧ (PPU.stepShifters st).nmi = st.nmi ∧
    (PPU.stepShifters st).scanline = st.scanline ∧ (PPU.stepShifters st).cycle = st.cycle := by
  have s1 : ∀ rem st i, (PPU.sprShiftLoop st i rem).status = st.status :=
    fun rem st i => (sprShiftLoop_keeps rem st i).1
  have s2 : ∀ rem st i, (PPU.sprShiftLoop st i rem).nmi = st.nmi :=
    fun rem st i => (sprShiftLoop_keeps rem st i).2.1
  have s3 : ∀ rem st i, (PPU.sprShiftLoop st i rem).scanline = st.scanline :=
    fun rem st i => (sprShiftLoop_keeps rem st i).2.2.1
  have s4 : ∀ rem st i, (PPU.sprShiftLoop st i rem).cycle = st.cycle :=
    fun rem st i => (sprShiftLoop_keeps rem st i).2.2.2
  refine ⟨?_, ?_, ?_, ?_⟩
  · simp only [PPU.stepShifters, s1, apply_ite PPUState.status, ite_self]
  · simp only [PPU.stepShifters, s2, apply_ite PPUState.nmi, ite_self]
  · simp only [PPU.stepShifters, s3, apply_ite PPUState.scanline, ite_self]
  · simp only [PPU.stepShifters, s4, apply_ite PPUState.cycle, ite_self]

/-- The 64-sprite scan can only OR `0x20` into `status` (so bit 7 is
unchanged) and changes none of `nmi`, `scanline`, `cycle`. -/
theorem evaluateLoop_keeps :
    ∀ rem y st i, ((PPU.evaluateLoop y st i rem).status).testBit 7 = st.status.testBit 7 ∧
      (PPU.evaluateLoop y st i rem).nmi = st.nmi ∧
      (PPU.evaluateLoop y st i rem).scanline = st.scanline ∧
      (PPU.evaluateLoop y st i rem).cycle = st.cycle := by
  have t32 : ∀ s : Nat, (s ||| 0x20).testBit 7 = s.testBit 7 :=
    fun s => testBit7_or s 0x20 (by decide)
  intro rem
  induction rem with
  | zero => intro y st i; exact ⟨rfl, rfl, rfl, rfl⟩
  | succ n ih =>
    have ih1 : ∀ y st i, ((PPU.evaluateLoop y st i n).status).testBit 7 = st.status.testBit 7 :=
      fun y st i => (ih y st i).1
    have ih2 : ∀ y st i, (PPU.evaluateLoop y st i n).nmi = st.nmi := fun y st i => (ih y st i).2.1
    have ih3 : ∀ y st i, (PPU.evaluateLoop y st i n).scanline = st.scanline :=
      fun y st i => (ih y st i).2.2.1
    have ih4 : ∀ y st i, (PPU.evaluateLoop y st i n).cycle = st.cycle :=
      fun y st i => (ih y st i).2.2.2
    intro y st i
    refine ⟨?_, ?_, ?_, ?_⟩
    · simp only [PPU.evaluateLoop, apply_ite PPUState.status,
        apply_ite (fun s : Nat => s.testBit 7), ih1, t32, ite_self]
    · simp only [PPU.evaluateLoop, apply_ite PPUState.nmi, ih2, ite_self]
    · simp only [PPU.evaluateLoop, apply_ite PPUState.scanline, ih3, ite_self]
    · simp only [PPU.evaluateLoop, apply_ite PPUState.cycle, ih4, ite_self]

/-- The per-slot population loop changes none of the four fields. -/
theorem fillLoop_keeps :
    ∀ rem st i, (PPU.fillLoop st i rem).status = st.status ∧
      (PPU.fillLoop st i rem).nmi = st.nmi ∧
      (PPU.fillLoop st i rem).scanline = st.scanline ∧
      (PPU.fillLoop st i rem).cycle = st.cycle := by
  intro rem
  induction rem with
  | zero => intro st i; exact ⟨rfl, rfl, rfl, rfl⟩
  | succ n ih =>
    have ih1 : ∀ st i, (PPU.fillLoop st i n).status = st.status := fun st i => (ih st i).1
    have ih2 : ∀ st i, (PPU.fillLoop st i n).nmi = st.nmi := fun st i => (ih st i).2.1
    have ih3 : ∀ st i, (PPU.fillLoop st i n).scanline = st.scanline := fun st i => (ih st i).2.2.1
    have ih4 : ∀ st i, (PPU.fillLoop st i n).cycle = st.cycle := fun st i => (ih st i).2.2.2
    intro st i
    refine ⟨?_, ?_, ?_, ?_⟩
    · simp only [PPU.fillLoop, ih1, apply_ite PPUState.status, ite_self]
    · simp only [PPU.fillLoop, ih2, apply_ite PPUState.nmi, ite_self]
    · simp only [PPU.fillLoop, ih3, apply_ite PPUState.scanline, ite_self]
    · simp only [PPU.fillLoop, ih4, apply_ite PPUState.cycle, ite_self]

/-- The sprite pattern-fetch loop changes none of the four fields. -/
theorem sprFetchLoop_keeps :
    ∀ rem h st i, (PPU.sprFetchLoop h st i rem).status = st.status ∧
      (PPU.sprFetchLoop h st i rem).nmi = st.nmi ∧
      (PPU.sprFetchLoop h st i rem).scanline = st.scanline ∧
      (PPU.sprFetchLoop h st i rem).cycle = st.cycle := by
  intro rem
  induction rem with
  | zero => intro h st i; exact ⟨rfl, rfl, rfl, rfl⟩
  | succ n ih =>
    have ih1 : ∀ h st i, (PPU.sprFetchLoop h st i n).status = st.status :=
      fun h st i => (ih h st i).1
    have ih2 : ∀ h st i, (PPU.sprFetchLoop h st i n).nmi = st.nmi :=
      fun h st i => (ih h st i).2.1
    have ih3 : ∀ h st i, (PPU.sprFetchLoop h st i n).scanline = st.scanline :=
      fun h st i => (ih h st i).2.2.1
    have ih4 : ∀ h st i, (PPU.sprFetchLoop h st i n).cycle = st.cycle :=
      fun h st i => (ih h st i).2.2.2
    intro h st i
    refine ⟨?_, ?_, ?_, ?_⟩
    · simp only [PPU.sprFetchLoop, ih1, apply_ite PPUState.status, ite_self]
    · simp only [PPU.sprFetchLoop, ih2, apply_ite PPUState.nmi, ite_self]
    · simp only [PPU.sprFetchLoop, ih3, apply_ite PPUState.scanline, ite_self]
    · simp only [PPU.sprFetchLoop, ih4, apply_ite PPUState.cycle, ite_self]

/-- The cycle-257 X-counter fixup loop changes none of the four fields. -/
theorem fixSpriteXLoop_keeps :
    ∀ rem st i, (PPU.fixSpriteXLoop st i rem).status = st.status ∧
      (PPU.fixSpriteXLoop st i rem).nmi = st.nmi ∧
      (PPU.fixSpriteXLoop st i rem).scanline = st.scanline ∧
      (PPU.fixSpriteXLoop st i rem).cycle = st.cycle := by
  intro rem
  induction rem with
  | zero => intro st i; exact ⟨rfl, rfl, rfl, rfl⟩
  | succ n ih =>
    have ih1 : ∀ st i, (PPU.fixSpriteXLoop st i n).status = st.status := fun st i => (ih st i).1
    have ih2 : ∀ st i, (PPU.fixSpriteXLoop st i n).nmi = st.nmi := fun st i => (ih st i).2.1
    have ih3 : ∀ st i, (PPU.fixSpriteXLoop st i n).scanline = st.scanline :=
      fun st i => (ih st i).2.2.1
    have ih4 : ∀ st i, (PPU.fixSpriteXLoop st i n).cycle = st.cycle := fun st i => (ih st i).2.2.2
    intro st i
    refine ⟨?_, ?_, ?_, ?_⟩
    · simp only [PPU.fixSpriteXLoop, ih1, apply_ite PPUState.status, ite_self]
    · simp only [PPU.fixSpriteXLoop, ih2, apply_ite PPUState.nmi, ite_self]
    · simp only [PPU.fixSpriteXLoop, ih3, apply_ite PPUState.scanline, ite_self]
    · simp only [PPU.fixSpriteXLoop, ih4, apply_ite PPUState.cycle, ite_self]

/-- Sprite evaluation can only OR `0x20` into `status` and changes none of
`nmi`, `scanline`, `cycle`. -/
theorem evaluateSprites_keeps (st : PPUState) :
    ((PPU.evaluateSprites st).status).testBit 7 = st.status.testBit 7 ∧
    (PPU.evaluateSprites st).nmi = st.nmi ∧
    (PPU.evaluateSprites st).scanline = st.scanline ∧
    (PPU.evaluateSprites st).cycle = st.cycle := by
  have e1 : ∀ rem y st i, ((PPU.evaluateLoop y st i rem).status).testBit 7
      = st.status.testBit 7 := fun rem y st i => (evaluateLoop_keeps rem y st i).1
  have e2 : ∀ rem y st i, (PPU.evaluateLoop y st i rem).nmi = st.nmi :=
    fun rem y st i => (evaluateLoop_keeps rem y st i).2.1
  have e3 : ∀ rem y st i, (PPU.evaluateLoop y st i rem).scanline = st.scanline :=
    fun rem y st i => (evaluateLoop_keeps rem y st i).2.2.1
  have e4 : ∀ rem y st i, (PPU.evaluateLoop y st i rem).cycle = st.cycle :=
    fun rem y st i => (evaluateLoop_keeps rem y st i).2.2.2
  have f1 : ∀ rem st i, (PPU.fillLoop st i rem).status = st.status :=
    fun rem st i => (fillLoop_keeps rem st i).1
  have f2 : ∀ rem st i, (PPU.fillLoop st i rem).nmi = st.nmi :=
    fun rem st i => (fillLoop_keeps rem st i).2.1
  have f3 : ∀ rem st i, (PPU.fillLoop st i rem).scanline = st.scanline :=
    fun rem st i => (fillLoop_keeps rem st i).2.2.1
  have f4 : ∀ rem st i, (PPU.fillLoop st i rem).cycle = st.cycle :=
    fun rem st i => (fillLoop_keeps rem st i).2.2.2
  refine ⟨?_, ?_, ?_, ?_⟩
  · simp only [PPU.evaluateSprites, f1, e1]
  · simp only [PPU.evaluateSprites, f2, e2]
  · simp only [PPU.evaluateSprites, f3, e3]
  · simp only [PPU.evaluateSprites, f4, e4]

/-- `fetchSpritePatterns` changes none of the four fields. -/
theorem fetchSpritePatterns_keeps (st : PPUState) :
    (PPU.fetchSpritePatterns st).status = st.status ∧
    (PPU.fetchSpritePatterns st).nmi = st.nmi ∧
    (PPU.fetchSpritePatterns st).scanline = st.scanline ∧
    (PPU.fetchSpritePatterns st).cycle = st.cycle := by
  have s1 : ∀ rem h st i, (PPU.sprFetchLoop h st i rem).status = st.status :=
    fun rem h st i => (sprFetchLoop_keeps rem h st i).1
  have s2 : ∀ rem h st i, (PPU.sprFetchLoop h st i rem).nmi = st.nmi :=
    fun rem h st i => (sprFetchLoop_keeps rem h st i).2.1
  have s3 : ∀ rem h st i, (PPU.sprFetchLoop h st i rem).scanline = st.scanline :=
    fun rem h st i => (sprFetchLoop_keeps rem h st i).2.2.1
  have s4 : ∀ rem h st i, (PPU.sprFetchLoop h st i rem).cycle = st.cycle :=
    fun rem h st i => (sprFetchLoop_keeps rem h st i).2.2.2
  exact ⟨by simp only [PPU.fetchSpritePatterns, s1],
    by simp only [PPU.fetchSpritePatterns, s2],
    by simp only [PPU.fetchSpritePatterns, s3],
    by simp only [PPU.fetchSpritePatterns, s4]⟩

/-- `renderPixel` can only OR `0x40` into `status` (bit 7 unchanged) and
changes none of `nmi`, `scanline`, `cycle`. -/
theorem renderPixel_keeps (st : PPUState) (x y : Nat) :
    ((PPU.renderPixel st x y).status).testBit 7 = st.status.testBit 7 ∧
    (PPU.renderPixel st x y).nmi = st.nmi ∧
    (PPU.renderPixel st x y).scanline = st.scanline ∧
    (PPU.renderPixel st x y).cycle = st.cycle := by
  have t64 : ∀ s : Nat, (s ||| 0x40).testBit 7 = s.testBit 7 :=
    fun s => testBit7_or s 0x40 (by decide)
  refine ⟨?_, ?_, ?_, ?_⟩
  · simp only [PPU.renderPixel, apply_ite PPUState.status,
      apply_ite (fun s : Nat => s.testBit 7), t64, ite_self]
  · simp only [PPU.renderPixel, apply_ite PPUState.nmi, ite_self]
  · simp only [PPU.renderPixel, apply_ite PPUState.scanline, ite_self]
  · simp only [PPU.renderPixel, apply_ite PPUState.cycle, ite_self]

/-- A visible-scanline pixel dot can only OR sprite-hit/overflow bits into
`status` (bit 7 unchanged) and changes none of `nmi`, `scanline`,
`cycle`. -/
theorem pixelPhase_keeps (re : Bool) (st : PPUState) :
    ((PPU.pixelPhase re st).status).testBit 7 = st.status.testBit 7 ∧
    (PPU.pixelPhase re st).nmi = st.nmi ∧
    (PPU.pixelPhase re st).scanline = st.scanline ∧
    (PPU.pixelPhase re st).cycle = st.cycle := by
  refine ⟨?_, ?_, ?_, ?_⟩
  · simp only [PPU.pixelPhase, apply_ite PPUState.status,
      apply_ite (fun s : Nat => s.testBit 7), fetchName_keeps, fetchAttr_keeps,
      fetchPatternLow_keeps, fetchPatternHigh_keeps, loadBGShiftRegisters_keeps,
      renderPixel_keeps, backdropFill_keeps, stepShifters_keeps, incCoarseX_keeps, ite_self]
  · simp only [PPU.pixelPhase, apply_ite PPUState.nmi, fetchName_keeps, fetchAttr_keeps,
      fetchPatternLow_keeps, fetchPatternHigh_keeps, loadBGShiftRegisters_keeps,
      renderPixel_keeps, backdropFill_keeps, stepShifters_keeps, incCoarseX_keeps, ite_self]
  · simp only [PPU.pixelPhase, apply_ite PPUState.scanline, fetchName_keeps, fetchAttr_keeps,
      fetchPatternLow_keeps, fetchPatternHigh_keeps, loadBGShiftRegisters_keeps,
      renderPixel_keeps, backdropFill_keeps, stepShifters_keeps, incCoarseX_keeps, ite_self]
  · simp only [PPU.pixelPhase, apply_ite PPUState.cycle, fetchName_keeps, fetchAttr_keeps,
      fetchPatternLow_keeps, fetchPatternHigh_keeps, loadBGShiftRegisters_keeps,
      renderPixel_keeps, backdropFill_keeps, stepShifters_keeps, incCoarseX_keeps, ite_self]

/-- The whole visible-scanline block keeps status bit 7, `nmi`,
`scanline` and `cycle` unchanged. -/
theorem visibleScanline_keeps (re : Bool) (st : PPUState) :
    ((PPU.visibleScanline re st).status).testBit 7 = st.status.testBit 7 ∧
    (PPU.visibleScanline re st).nmi = st.nmi ∧
    (PPU.visibleScanline re st).scanline = st.scanline ∧
    (PPU.visibleScanline re st).cycle = st.cycle := by
  refine ⟨?_, ?_, ?_, ?_⟩
  · simp only [PPU.visibleScanline, apply_ite PPUState.status, apply_ite PPUState.cycle,
      apply_ite (fun s : Nat => s.testBit 7), pixelPhase_keeps, copyX_keeps,
      evaluateSprites_keeps, fetchSpritePatterns_keeps, fixSpriteXLoop_keeps, incY_keeps,
      ite_self]
  · simp only [PPU.visibleScanline, apply_ite PPUState.nmi, apply_ite PPUState.cycle,
      pixelPhase_keeps, copyX_keeps, evaluateSprites_keeps, fetchSpritePatterns_keeps,
      fixSpriteXLoop_keeps, incY_keeps, ite_self]
  · simp only [PPU.visibleScanline, apply_ite PPUState.scanline, apply_ite PPUState.cycle,
      pixelPhase_keeps, copyX_keeps, evaluateSprites_keeps, fetchSpritePatterns_keeps,
      fixSpriteXLoop_keeps, incY_keeps, ite_self]
  · simp only [PPU.visibleScanline, apply_ite PPUState.cycle, pixelPhase_keeps, copyX_keeps,
      evaluateSprites_keeps, fetchSpritePatterns_keeps, fixSpriteXLoop_keeps, incY_keeps,
      ite_self]

/-- The counter advance changes neither `status` nor `nmi`. -/
theorem advanceCounters_keeps (st : PPUState) :
    (PPU.advanceCounters st).status = st.status ∧ (PPU.advanceCounters st).nmi = st.nmi := by
  constructor
  · simp only [PPU.advanceCounters, apply_ite PPUState.status, ite_self]
  · simp only [PPU.advanceCounters, apply_ite PPUState.nmi, ite_self]

/-- C7: the step at scanline 241, dot 1 sets VBlank (status bit 7) and
asserts the NMI output exactly when ctrl bit 7 is set (otherwise the NMI
line is left as it was); the step at scanline 261, dot 1 clears VBlank,
sprite-0 hit and sprite overflow and leaves the NMI line alone; and at
every other (scanline, dot) the step never changes VBlank and never
asserts NMI. -/
theorem C7_vblank_nmi_timing (st : PPUState) :
    (st.scanline = 241 ∧ st.cycle = 1 →
      ((PPU.step st).status).testBit 7 = true ∧
      (st.ctrl &&& 0x80 ≠ 0 → (PPU.step st).nmi = true) ∧
      (st.ctrl &&& 0x80 = 0 → (PPU.step st).nmi = st.nmi)) ∧
    (st.scanline = 261 ∧ st.cycle = 1 →
      ((PPU.step st).status).testBit 7 = false ∧
      ((PPU.step st).status).testBit 6 = false ∧
      ((PPU.step st).status).testBit 5 = false ∧
      (PPU.step st).nmi = st.nmi) ∧
    (¬(st.scanline = 241 ∧ st.cycle = 1) → ¬(st.scanline = 261 ∧ st.cycle = 1) →
      ((PPU.step st).status).testBit 7 = st.status.testBit 7 ∧
      (PPU.step st).nmi = st.nmi) := by
  have t128 : ∀ s : Nat, (s ||| 0x80).testBit 7 = true := fun s => by
    rw [Nat.testBit_lor, (by decide : Nat.testBit 0x80 7 = true), Bool.or_true]
  have tcl : ∀ k, Nat.testBit 0xFFFFFF1F k = false →
      ∀ s : Nat, (s &&& 0xFFFFFF1F).testBit k = false := fun k hk s => by
    rw [Nat.testBit_land, hk, Bool.and_false]
  refine ⟨?_, ?_, ?_⟩
  · rintro ⟨h241, h1⟩
    have dA1 : (((241 : Nat)) = 261) = False := by simp
    have dA2 : (((241 : Nat)) ≤ 239) = False := by simp
    have dA3 : (((241 : Nat)) = 241) = True := by simp
    have dA4 : (((1 : Nat)) = 1) = True := by simp
    refine ⟨?_, ?_, ?_⟩
    · simp only [PPU.step, PPU.renderToCanvas, h241, h1, dA1, dA2, dA3, dA4, true_and,
        false_and, and_true, and_false, and_self, if_false, if_true, advanceCounters_keeps,
        apply_ite PPUState.status, ite_self, t128]
    · intro hc
      simp only [PPU.step, PPU.renderToCanvas, h241, h1, dA1, dA2, dA3, dA4, true_and,
        false_and, and_true, and_false, and_self, if_false, if_true, advanceCounters_keeps,
        apply_ite PPUState.nmi, ite_self]
      rw [if_pos hc]
    · intro hc
      simp only [PPU.step, PPU.renderToCanvas, h241, h1, dA1, dA2, dA3, dA4, true_and,
        false_and, and_true, and_false, and_self, if_false, if_true, advanceCounters_keeps,
        apply_ite PPUState.nmi, ite_self]
      rw [if_neg (by simp [hc])]
  · rintro ⟨h261, h1⟩
    have dB1 : (((261 : Nat)) = 261) = True := by simp
    have dB2 : (((261 : Nat)) ≤ 239) = False := by simp
    have dB3 : (((280 : Nat)) ≤ 1) = False := by simp
    have dB4 : (((261 : Nat)) = 241) = False := by simp
    have dB5 : (((1 : Nat)) = 1) = True := by simp
    refine ⟨?_, ?_, ?_, ?_⟩ <;>
      simp only [PPU.step, PPU.renderToCanvas, h261, h1, dB1, dB2, dB3, dB4, dB5, true_and,
        false_and, and_true, and_false, and_self, if_false, if_true, advanceCounters_keeps,
        apply_ite PPUState.status, apply_ite PPUState.nmi, ite_self,
        tcl 7 (by decide), tcl 6 (by decide), tcl 5 (by decide)]
  · intro hA hB
    constructor
    · simp only [PPU.step, PPU.renderToCanvas]
      rw [if_neg hB]
      simp only [advanceCounters_keeps, apply_ite PPUState.status, apply_ite PPUState.scanline,
        apply_ite PPUState.cycle, apply_ite (fun s : Nat => s.testBit 7),
        visibleScanline_keeps, copyY_keeps, ite_self]
      rw [if_neg hA]
    · simp only [PPU.step, PPU.renderToCanvas]
      rw [if_neg hB]
      simp only [advanceCounters_keeps, apply_ite PPUState.nmi, apply_ite PPUState.scanline,
        apply_ite PPUState.cycle, visibleScanline_keeps, copyY_keeps, ite_self]
      rw [if_neg hA]

end

/-- Witness for C7 at three concrete states: the VBlank-set step (with NMI
enabled), the pre-render clear step, and an ordinary mid-frame step. -/
theorem C7_vblank_nmi_timing_witness :
    (((PPU.step { PPU.init with scanline := 241, cycle := 1, ctrl := 0x80 }).status).testBit 7
        = true ∧
      (PPU.step { PPU.init with scanline := 241, cycle := 1, ctrl := 0x80 }).nmi = true) ∧
    ((PPU.step { PPU.init with scanline := 261, cycle := 1, status := 0xE0 }).status).testBit 7
        = false ∧
    ((PPU.step { PPU.init with scanline := 100, cycle := 5 }).status).testBit 7
        = ({ PPU.init with scanline := 100, cycle := 5 } : PPUState).status.testBit 7 :=
  ⟨⟨((C7_vblank_nmi_timing { PPU.init with scanline := 241, cycle := 1, ctrl := 0x80 }).1
        ⟨rfl, rfl⟩).1,
    ((C7_vblank_nmi_timing { PPU.init with scanline := 241, cycle := 1, ctrl := 0x80 }).1
        ⟨rfl, rfl⟩).2.1 (by decide)⟩,
   ((C7_vblank_nmi_timing { PPU.init with scanline := 261, cycle := 1, status := 0xE0 }).2.1
        ⟨rfl, rfl⟩).1,
   ((C7_vblank_nmi_timing { PPU.init with scanline := 100, cycle := 5 }).2.2
        (by decide) (by decide)).1⟩
